import Mathlib

/-!
Verification of the inter-location transfer workflow of the TuStockYa
backend (`app/modules/transfers/service.py`, `app/modules/transfers/repository.py`,
`app/modules/transfers/schemas.py`, `app/modules/warehouse/service.py`,
`app/shared/database/models.py`).

The relational state is embedded as lists of rows mirroring the ORM models;
each service operation is a pure function `DB → Except ApiError payload × DB`
translated line by line from the Python source.  Errors carry the HTTP status
class the source raises (404 / 403 / 400 / 409 / 500) together with the
`detail` string.

A kwarg passed to `TransferRepository.update_transfer_status` whose key is
not a mapped column of the `TransferRequest` model makes `Query.update`
raise `SQLAlchemyError`; the repository's except-branch rolls back and
re-raises, and no service catches it, so the request fails as an unhandled
500 with nothing persisted.  Two call sites do this unconditionally —
accept with accepted=true passes `estimated_preparation_time` and requester
cancel passes `cancelled_at`, neither a column of the model — and they are
embedded as exactly that failure.  `ApiError.unhandledException` stands for
an exception escaping the service (FastAPI's generic 500), as distinct from
a deliberately raised `HTTPException` (`ApiError.internalError`).
`WarehouseService.reverse_inventory_movement` commits its effects and then
raises `AttributeError` building the response (`Product` has no
`location_id` attribute), so it is embedded as an unhandled error whose
database effects persist.
-/

namespace TuStockYa

/-- `locations` table (the fields the transfer workflow reads). -/
structure LocationRow where
  id : Nat
  name : String
deriving Repr, DecidableEq

/-- `products` table (`models.Product`). -/
structure ProductRow where
  id : Nat
  reference_code : String
  description : String
  brand : String
  model : String
  color_info : Option String
  location_name : String
  unit_price : Int
  box_price : Int
  is_active : Int
  image_url : Option String
  video_url : Option String
deriving Repr, DecidableEq

/-- `product_sizes` table (`models.ProductSize`). -/
structure ProductSizeRow where
  id : Nat
  product_id : Nat
  size : String
  quantity : Int
  quantity_exhibition : Int
  location_name : String
deriving Repr, DecidableEq

/-- `inventory_changes` table (`models.InventoryChange`). -/
structure InventoryChangeRow where
  id : Nat
  product_id : Nat
  change_type : String
  size : Option String
  quantity_before : Int
  quantity_after : Int
  reference_id : Option Nat
  user_id : Nat
  notes : String
deriving Repr, DecidableEq

/-- `transfer_requests` table (`models.TransferRequest`).  The model has no
`cancelled_at` and no `estimated_preparation_time` column. -/
structure TransferRow where
  id : Nat
  requester_id : Nat
  source_location_id : Nat
  destination_location_id : Nat
  sneaker_reference_code : String
  brand : String
  model : String
  size : String
  quantity : Int
  purpose : String
  pickup_type : String
  destination_type : String
  courier_id : Option Nat
  warehouse_keeper_id : Option Nat
  status : String
  requested_at : Nat
  accepted_at : Option Nat
  picked_up_at : Option Nat
  delivered_at : Option Nat
  notes : Option String
  confirmed_reception_at : Option Nat
  received_quantity : Option Int
  reception_notes : Option String
  courier_accepted_at : Option Nat
  courier_notes : Option String
  estimated_pickup_time : Option Int
  pickup_notes : Option String
deriving Repr, DecidableEq

/-- The database: one list per table, autoincrement counters, and a logical
clock standing for `datetime.utcnow()`. -/
structure DB where
  locations : List LocationRow
  products : List ProductRow
  product_sizes : List ProductSizeRow
  transfers : List TransferRow
  inventory_changes : List InventoryChangeRow
  next_transfer_id : Nat
  next_product_id : Nat
  next_size_id : Nat
  next_change_id : Nat
  now : Nat
deriving Repr, DecidableEq

/-- The slice of `UserResponse` / `User` the transfer operations read. -/
structure UserT where
  id : Nat
  location_id : Nat
deriving Repr, DecidableEq

/-- `schemas.TransferRequestCreate` (already pydantic-validated). -/
structure TransferRequestCreate where
  source_location_id : Nat
  sneaker_reference_code : String
  brand : String
  model : String
  size : String
  quantity : Int
  purpose : String
  pickup_type : String
  destination_type : String
  notes : Option String
deriving Repr, DecidableEq

/-- `schemas.TransferAcceptance`. -/
structure TransferAcceptance where
  transfer_request_id : Nat
  accepted : Bool
  estimated_preparation_time : Int
  notes : Option String
deriving Repr, DecidableEq

/-- `schemas.CourierAcceptance`. -/
structure CourierAcceptance where
  estimated_pickup_time : Int
  notes : Option String
deriving Repr, DecidableEq

/-- `schemas.PickupConfirmation`. -/
structure PickupConfirmation where
  pickup_notes : Option String
deriving Repr, DecidableEq

/-- `schemas.DeliveryConfirmation`. -/
structure DeliveryConfirmation where
  delivery_successful : Bool
  notes : Option String
deriving Repr, DecidableEq

/-- `schemas.ReceptionConfirmation` (already pydantic-validated). -/
structure ReceptionConfirmation where
  received_quantity : Int
  condition_ok : Bool
  notes : Option String
deriving Repr, DecidableEq

/-- `warehouse/schemas.MovementReversal`. -/
structure MovementReversal where
  original_movement_id : Nat
  reason : String
  notes : Option String
deriving Repr, DecidableEq

/-- The typed failures a request can end in: the `HTTPException` status
classes the services raise, the pydantic 422 raised before a service runs,
and an exception escaping the service uncaught (FastAPI's generic 500). -/
inductive ApiError where
  | notFound (detail : String)
  | forbidden (detail : String)
  | badRequest (detail : String)
  | conflict (detail : String)
  | internalError (detail : String)
  | validationError (detail : String)
  | unhandledException (detail : String)
deriving Repr, DecidableEq

/-- Result of one service call. -/
abbrev TResult (α : Type) := Except ApiError α

/-- Decidable equality of service results. -/
instance instDecEqExcept {ε α : Type} [DecidableEq ε] [DecidableEq α] :
    DecidableEq (Except ε α)
  | .ok a, .ok b =>
    if h : a = b then .isTrue (congrArg Except.ok h)
    else .isFalse (fun hc => h (Except.ok.inj hc))
  | .error a, .error b =>
    if h : a = b then .isTrue (congrArg Except.error h)
    else .isFalse (fun hc => h (Except.error.inj hc))
  | .ok _, .error _ => .isFalse (fun hc => Except.noConfusion hc)
  | .error _, .ok _ => .isFalse (fun hc => Except.noConfusion hc)

/-- Python string interpolation of an optional value (`None` prints as
`"None"` inside an f-string). -/
def pyFormat : Option String → String
  | none => "None"
  | some s => s

/-- Python `x or d` on an optional string (`None` and `""` are falsy). -/
def pyOrString : Option String → String → String
  | none, d => d
  | some s, d => if s == "" then d else s

/-- `TransferRepository.get_transfer_by_id`. -/
def get_transfer_by_id (db : DB) (transfer_id : Nat) : Option TransferRow :=
  db.transfers.find? (fun t => t.id == transfer_id)

/-- `db.query(Location).filter(Location.id == lid).first()`. -/
def find_location (db : DB) (location_id : Nat) : Option LocationRow :=
  db.locations.find? (fun l => l.id == location_id)

/-- `db.query(Product).filter(Product.id == pid).first()`. -/
def find_product_by_id (db : DB) (product_id : Nat) : Option ProductRow :=
  db.products.find? (fun p => p.id == product_id)

/-- The `Product` row a `ProductSize` row joins to. -/
def productOf (db : DB) (ps : ProductSizeRow) : Option ProductRow :=
  db.products.find? (fun p => p.id == ps.product_id)

/-- `db.query(ProductSize).join(Product).filter(reference_code, location_name,
size, is_active == 1).first()` — used by `check_product_availability` and
`_update_inventory_on_pickup`. -/
def find_active_size (db : DB) (reference_code sz locName : String) :
    Option ProductSizeRow :=
  db.product_sizes.find? (fun ps =>
    ps.size == sz &&
      match productOf db ps with
      | some p =>
          p.reference_code == reference_code && p.location_name == locName &&
            p.is_active == 1
      | none => false)

/-- The dict `TransferRepository.check_product_availability` returns (absent
keys modelled as their `.get(…, 0)` defaults, which is how every caller reads
them). -/
structure Availability where
  available : Bool
  physical_stock : Int
  available_stock : Int
deriving Repr, DecidableEq

/-- `TransferRepository.check_product_availability`. -/
def check_product_availability (db : DB) (reference_code sz : String)
    (location_id : Nat) : Availability :=
  match find_location db location_id with
  | none => ⟨false, 0, 0⟩
  | some loc =>
    match find_active_size db reference_code sz loc.name with
    | none => ⟨false, 0, 0⟩
    | some ps => ⟨ps.quantity > 0, ps.quantity, ps.quantity⟩

/-- The keyword arguments reaching `update_transfer_status` when the update
dict holds only mapped columns (every key here is a `TransferRequest`
column).  An outer `none` means the kwarg was not passed; for the nullable
text columns the inner option is the value passed (Python passes `None`
through and it overwrites the column).  The two call sites whose kwargs
include a non-column key (`estimated_preparation_time` at approve,
`cancelled_at` at cancel) never reach a persisted update: `Query.update`
raises for the unmapped key, so those sites are embedded directly as the
resulting unhandled failure. -/
structure UpdateKwargs where
  warehouse_keeper_id : Option Nat := none
  courier_id : Option Nat := none
  notes : Option (Option String) := none
  courier_notes : Option (Option String) := none
  pickup_notes : Option (Option String) := none
  reception_notes : Option (Option String) := none
  received_quantity : Option Int := none
  estimated_pickup_time : Option Int := none
deriving Repr, DecidableEq

/-- The row update `update_transfer_status` performs when every key of the
update dict is a mapped column: sets `status`, the per-status timestamp
branch, then the remaining kwargs. -/
def applyStatusUpdate (now : Nat) (st : String) (kw : UpdateKwargs)
    (t : TransferRow) : TransferRow :=
  { t with
    status := st,
    warehouse_keeper_id :=
      if st == "accepted" && kw.warehouse_keeper_id.isSome then
        kw.warehouse_keeper_id
      else t.warehouse_keeper_id,
    accepted_at :=
      if st == "accepted" && kw.warehouse_keeper_id.isSome then some now
      else t.accepted_at,
    courier_id :=
      if st == "courier_assigned" && kw.courier_id.isSome then kw.courier_id
      else t.courier_id,
    courier_accepted_at :=
      if st == "courier_assigned" && kw.courier_id.isSome then some now
      else t.courier_accepted_at,
    picked_up_at := if st == "in_transit" then some now else t.picked_up_at,
    delivered_at := if st == "delivered" then some now else t.delivered_at,
    confirmed_reception_at :=
      if st == "completed" then some now else t.confirmed_reception_at,
    notes := kw.notes.getD t.notes,
    courier_notes := kw.courier_notes.getD t.courier_notes,
    pickup_notes := kw.pickup_notes.getD t.pickup_notes,
    reception_notes := kw.reception_notes.getD t.reception_notes,
    received_quantity :=
      (kw.received_quantity.map some).getD t.received_quantity,
    estimated_pickup_time :=
      (kw.estimated_pickup_time.map some).getD t.estimated_pickup_time }

/-- `TransferRepository.update_transfer_status`: one conditional `UPDATE` on
the row with the given id; the returned Bool is `rows_updated > 0`. -/
def update_transfer_status (db : DB) (transfer_id : Nat) (st : String)
    (kw : UpdateKwargs) : Bool × DB :=
  ((get_transfer_by_id db transfer_id).isSome,
    { db with
        transfers := db.transfers.map (fun t =>
          if t.id == transfer_id then applyStatusUpdate db.now st kw t
          else t) })

/-- In-place mutation of one `ProductSize.quantity` (the fetched ORM row). -/
def updateQty (sizes : List ProductSizeRow) (size_id : Nat) (f : Int → Int) :
    List ProductSizeRow :=
  sizes.map (fun ps =>
    if ps.id == size_id then { ps with quantity := f ps.quantity } else ps)

/-- `TransferService._update_inventory_on_pickup`: decrement the source
variant, failing (with no mutation) when the location or the variant is
missing or the physical quantity is below the transfer quantity.  It appends
no `InventoryChange` row. -/
def update_inventory_on_pickup (db : DB) (t : TransferRow)
    (warehouse_location_id : Nat) : Bool × DB :=
  match find_location db warehouse_location_id with
  | none => (false, db)
  | some loc =>
    match find_active_size db t.sneaker_reference_code t.size loc.name with
    | none => (false, db)
    | some ps =>
      if ps.quantity < t.quantity then (false, db)
      else
        (true,
          { db with
              product_sizes :=
                updateQty db.product_sizes ps.id (fun q => q - t.quantity) })

/-- `TransferService._update_inventory_on_reception`: add `quantity` to the
variant at the vendor location, creating the size row — and, when no product
with the reference code exists at that location, a product row copied from
the FIRST product anywhere with that reference code — as needed.  It appends
no `InventoryChange` row. -/
def update_inventory_on_reception (db : DB) (t : TransferRow) (quantity : Int)
    (vendor_location_id : Nat) : Bool × DB :=
  match find_location db vendor_location_id with
  | none => (false, db)
  | some loc =>
    match db.products.find? (fun p =>
        p.reference_code == t.sneaker_reference_code &&
          p.location_name == loc.name) with
    | some existing_product =>
      match db.product_sizes.find? (fun ps =>
          ps.product_id == existing_product.id && ps.size == t.size) with
      | some ps =>
        (true,
          { db with
              product_sizes :=
                updateQty db.product_sizes ps.id (fun q => q + quantity) })
      | none =>
        let new_size : ProductSizeRow :=
          { id := db.next_size_id, product_id := existing_product.id,
            size := t.size, quantity := quantity, quantity_exhibition := 0,
            location_name := loc.name }
        (true,
          { db with
              product_sizes := db.product_sizes ++ [new_size],
              next_size_id := db.next_size_id + 1 })
    | none =>
      -- the source lookup filters on reference_code only, NOT on a location
      match db.products.find? (fun p =>
          p.reference_code == t.sneaker_reference_code) with
      | some source_product =>
        let new_product : ProductRow :=
          { id := db.next_product_id,
            reference_code := t.sneaker_reference_code,
            description := t.brand ++ " " ++ t.model,
            brand := t.brand, model := t.model,
            color_info := some (pyOrString source_product.color_info "Varios"),
            location_name := loc.name,
            unit_price := source_product.unit_price,
            box_price := source_product.box_price,
            is_active := 1,
            image_url := source_product.image_url,
            video_url := source_product.video_url }
        let new_size : ProductSizeRow :=
          { id := db.next_size_id, product_id := db.next_product_id,
            size := t.size, quantity := quantity, quantity_exhibition := 0,
            location_name := loc.name }
        (true,
          { db with
              products := db.products ++ [new_product],
              product_sizes := db.product_sizes ++ [new_size],
              next_product_id := db.next_product_id + 1,
              next_size_id := db.next_size_id + 1 })
      | none => (true, db)

/-- `TransferService.create_transfer_request` (VE003).  The payload is the
created row. -/
def create_transfer_request (db : DB) (request_data : TransferRequestCreate)
    (requester : UserT) : TResult TransferRow × DB :=
  if request_data.source_location_id == requester.location_id then
    (.error (.badRequest "No puedes solicitar productos de tu propia ubicación"),
      db)
  else
    let availability :=
      check_product_availability db request_data.sneaker_reference_code
        request_data.size request_data.source_location_id
    if !availability.available then
      (.error (.badRequest ("Producto no disponible. Stock actual: " ++
        toString availability.physical_stock)), db)
    else if availability.available_stock < request_data.quantity then
      (.error (.badRequest ("Stock insuficiente. Disponible: " ++
        toString availability.available_stock ++ ", Solicitado: " ++
        toString request_data.quantity)), db)
    else
      let transfer : TransferRow :=
        { id := db.next_transfer_id,
          requester_id := requester.id,
          source_location_id := request_data.source_location_id,
          destination_location_id := requester.location_id,
          sneaker_reference_code := request_data.sneaker_reference_code,
          brand := request_data.brand,
          model := request_data.model,
          size := request_data.size,
          quantity := request_data.quantity,
          purpose := request_data.purpose,
          pickup_type := request_data.pickup_type,
          destination_type := request_data.destination_type,
          courier_id := none,
          warehouse_keeper_id := none,
          status := "pending",
          requested_at := db.now,
          accepted_at := none, picked_up_at := none, delivered_at := none,
          notes := request_data.notes,
          confirmed_reception_at := none, received_quantity := none,
          reception_notes := none, courier_accepted_at := none,
          courier_notes := none, estimated_pickup_time := none,
          pickup_notes := none }
      (.ok transfer,
        { db with
            transfers := db.transfers ++ [transfer],
            next_transfer_id := db.next_transfer_id + 1 })

/-- `TransferService.accept_transfer_request` (BG002).  The payload is the
updated row.  The approve path passes an `estimated_preparation_time` kwarg
with no mapped column, so it always ends in the re-raised SQLAlchemyError;
the reject path passes only mapped columns and persists. -/
def accept_transfer_request (db : DB) (acceptance : TransferAcceptance)
    (warehouse_keeper : UserT) : TResult TransferRow × DB :=
  match get_transfer_by_id db acceptance.transfer_request_id with
  | none => (.error (.notFound "Solicitud no encontrada"), db)
  | some transfer =>
    if transfer.status != "pending" then
      (.error (.badRequest ("Solicitud no puede ser procesada. Estado actual: " ++
        transfer.status)), db)
    else if acceptance.accepted then
      let availability :=
        check_product_availability db transfer.sneaker_reference_code
          transfer.size transfer.source_location_id
      if !availability.available ||
          availability.available_stock < transfer.quantity then
        (.error (.badRequest ("Stock insuficiente. Disponible: " ++
          toString availability.available_stock)), db)
      else
        -- the update dict here carries estimated_preparation_time, which is
        -- not a TransferRequest column: Query.update raises SQLAlchemyError,
        -- the repository rolls back and re-raises, no caller catches it, and
        -- nothing is persisted
        (.error (.unhandledException
          "SQLAlchemyError: unmapped column estimated_preparation_time"), db)
    else
      let r := update_transfer_status db acceptance.transfer_request_id
        "cancelled"
        { warehouse_keeper_id := some warehouse_keeper.id,
          notes :=
            some (some ("Rechazada por bodeguero: " ++
              pyFormat acceptance.notes)) }
      (match get_transfer_by_id r.2 acceptance.transfer_request_id with
        | some updated => .ok updated
        | none => .error (.internalError "Solicitud no encontrada"), r.2)

/-- `TransferService.accept_courier_request` (CO002, the courier claim).  The
payload is the updated row. -/
def accept_courier_request (db : DB) (transfer_id : Nat)
    (acceptance : CourierAcceptance) (courier : UserT) :
    TResult TransferRow × DB :=
  match get_transfer_by_id db transfer_id with
  | none => (.error (.notFound "Solicitud no encontrada"), db)
  | some transfer =>
    if transfer.status != "accepted" || transfer.courier_id.isSome then
      (.error (.conflict "Solicitud no disponible - ya fue tomada por otro corredor"),
        db)
    else
      let r := update_transfer_status db transfer_id "courier_assigned"
        { courier_id := some courier.id,
          estimated_pickup_time := some acceptance.estimated_pickup_time,
          courier_notes := some acceptance.notes }
      (if !r.1 then .error (.internalError "Error asignando solicitud")
        else
          match get_transfer_by_id r.2 transfer_id with
          | some updated => .ok updated
          | none => .error (.internalError "Solicitud no encontrada"), r.2)

/-- `TransferService.confirm_pickup` (CO003).  The payload is the reported
`status` field of the response dict. -/
def confirm_pickup (db : DB) (transfer_id : Nat)
    (confirmation : PickupConfirmation) (courier : UserT) :
    TResult String × DB :=
  match get_transfer_by_id db transfer_id with
  | none => (.error (.notFound "Transferencia no encontrada"), db)
  | some transfer =>
    if transfer.courier_id != some courier.id then
      (.error (.forbidden "No autorizado para esta transferencia"), db)
    else if transfer.status != "courier_assigned" then
      (.error (.badRequest ("Estado incorrecto. Estado actual: " ++
        transfer.status)), db)
    else
      let r := update_transfer_status db transfer_id "in_transit"
        { pickup_notes := some confirmation.pickup_notes }
      (if !r.1 then .error (.internalError "Error confirmando recolección")
        else .ok "in_transit", r.2)

/-- `TransferService.deliver_to_courier` (BG003, the hand-off).  The payload
is the (`status`, `inventory_updated`) pair of the response dict. -/
def deliver_to_courier (db : DB) (transfer_id : Nat)
    (delivery : DeliveryConfirmation) (warehouse_keeper : UserT) :
    TResult (String × Bool) × DB :=
  match get_transfer_by_id db transfer_id with
  | none => (.error (.notFound "Transferencia no encontrada"), db)
  | some transfer =>
    if transfer.warehouse_keeper_id != some warehouse_keeper.id then
      (.error (.forbidden "No autorizado para esta transferencia"), db)
    else if transfer.status != "courier_assigned" then
      (.error (.badRequest ("Estado incorrecto para entrega. Estado actual: " ++
        transfer.status)), db)
    else if delivery.delivery_successful then
      let inv := update_inventory_on_pickup db transfer
        warehouse_keeper.location_id
      if inv.1 then
        let r := update_transfer_status inv.2 transfer_id "in_transit"
          { pickup_notes := some delivery.notes }
        (.ok ("in_transit", true), r.2)
      else (.error (.internalError "Error actualizando inventario"), inv.2)
    else
      let r := update_transfer_status db transfer_id "delivery_failed"
        { pickup_notes :=
            some (some ("Entrega fallida: " ++ pyFormat delivery.notes)) }
      (.ok ("delivery_failed", false), r.2)

/-- `TransferService.confirm_delivery` (CO004).  The payload is the `status`
field of the response dict. -/
def confirm_delivery (db : DB) (transfer_id : Nat)
    (confirmation : DeliveryConfirmation) (courier : UserT) :
    TResult String × DB :=
  match get_transfer_by_id db transfer_id with
  | none => (.error (.notFound "Transferencia no encontrada"), db)
  | some transfer =>
    if transfer.courier_id != some courier.id then
      (.error (.forbidden "No autorizado para esta transferencia"), db)
    else if transfer.status != "in_transit" then
      (.error (.badRequest ("Estado incorrecto. Estado actual: " ++
        transfer.status)), db)
    else if confirmation.delivery_successful then
      let r := update_transfer_status db transfer_id "delivered"
        { courier_notes := some confirmation.notes }
      (.ok "delivered", r.2)
    else
      let r := update_transfer_status db transfer_id "delivery_failed"
        { courier_notes :=
            some (some ("Entrega fallida: " ++ pyFormat confirmation.notes)) }
      (.ok "delivery_failed", r.2)

/-- `TransferService.confirm_reception` (VE008).  The payload is the
`inventory_updated` field of the response dict. -/
def confirm_reception (db : DB) (transfer_id : Nat)
    (confirmation : ReceptionConfirmation) (requester : UserT) :
    TResult Bool × DB :=
  match get_transfer_by_id db transfer_id with
  | none => (.error (.notFound "Transferencia no encontrada"), db)
  | some transfer =>
    if transfer.requester_id != requester.id then
      (.error (.forbidden "No autorizado para confirmar esta transferencia"), db)
    else if transfer.status != "delivered" then
      (.error (.badRequest
        ("La transferencia debe estar en estado 'delivered'. Estado actual: " ++
          transfer.status)), db)
    else if confirmation.condition_ok && confirmation.received_quantity > 0 then
      let inv := update_inventory_on_reception db transfer
        confirmation.received_quantity requester.location_id
      if inv.1 then
        let r := update_transfer_status inv.2 transfer_id "completed"
          { received_quantity := some confirmation.received_quantity,
            reception_notes := some confirmation.notes }
        (.ok true, r.2)
      else (.error (.internalError "Error actualizando inventario"), inv.2)
    else
      let r := update_transfer_status db transfer_id "reception_issues"
        { received_quantity := some confirmation.received_quantity,
          reception_notes :=
            some (some ("Problemas en recepción: " ++
              pyFormat confirmation.notes)) }
      (.ok false, r.2)

/-- `TransferRepository.can_cancel_transfer`. -/
def can_cancel_transfer (db : DB) (transfer_id user_id : Nat) : Bool :=
  match get_transfer_by_id db transfer_id with
  | none => false
  | some t =>
      t.requester_id == user_id &&
        (t.status == "pending" || t.status == "accepted")

/-- `TransferService.cancel_transfer_request`.  Past the requester/status
gate the update dict carries `cancelled_at`, which is not a TransferRequest
column: `Query.update` raises SQLAlchemyError, the repository rolls back and
re-raises, no caller catches it, and the cancellation never persists. -/
def cancel_transfer_request (db : DB) (transfer_id : Nat) (requester : UserT)
    (reason : String) : TResult Unit × DB :=
  if !can_cancel_transfer db transfer_id requester.id then
    (.error (.badRequest
      "No se puede cancelar: transferencia no encontrada, no es tuya, o ya está en proceso"),
      db)
  else
    (.error (.unhandledException "SQLAlchemyError: unmapped column cancelled_at"),
      db)

/-- `WarehouseService.reverse_inventory_movement` (BG010).  The reversal
record and the quantity restore are committed, but the response is then
built with `product.location_id` — `models.Product` has no such attribute —
so every call ends in an unhandled AttributeError AFTER the commit: the
database effects persist while the caller gets a 500.  When the original
movement's product row is missing, the AttributeError (on
`product.id`) fires before `commit` and nothing is persisted. -/
def reverse_inventory_movement (db : DB) (reversal : MovementReversal)
    (warehouse_keeper : UserT) : TResult InventoryChangeRow × DB :=
  match db.inventory_changes.find? (fun c =>
      c.id == reversal.original_movement_id) with
  | none => (.error (.notFound "Movimiento original no encontrado"), db)
  | some original_movement =>
    let reversal_movement : InventoryChangeRow :=
      { id := db.next_change_id,
        product_id := original_movement.product_id,
        change_type := "reversal",
        size := original_movement.size,
        quantity_before := original_movement.quantity_after,
        quantity_after := original_movement.quantity_before,
        reference_id := some original_movement.id,
        user_id := warehouse_keeper.id,
        notes := "REVERSIÓN: " ++ reversal.reason ++
          " | Movimiento original ID: " ++
          toString reversal.original_movement_id ++ ". " ++
          (reversal.notes.getD "") }
    match find_product_by_id db original_movement.product_id with
    | none =>
      (.error (.unhandledException "AttributeError: NoneType has no attribute id"),
        db)
    | some product =>
      let db1 :=
        match db.product_sizes.find? (fun ps =>
            ps.product_id == product.id &&
              some ps.size == original_movement.size) with
        | some ps =>
          { db with
              product_sizes :=
                updateQty db.product_sizes ps.id (fun q =>
                  q + (original_movement.quantity_before -
                    original_movement.quantity_after)) }
        | none => db
      -- commit happens here; the response construction then raises
      (.error (.unhandledException
        "AttributeError: Product has no attribute location_id"),
        { db1 with
            inventory_changes := db1.inventory_changes ++ [reversal_movement],
            next_change_id := db1.next_change_id + 1 })

/-- Pydantic validation of `ReceptionConfirmation` at the HTTP boundary:
`received_quantity` carries `gt=0` and `notes` carries `max_length=300`. -/
def parse_reception_confirmation (received_quantity : Int)
    (condition_ok : Bool) (notes : Option String) :
    Option ReceptionConfirmation :=
  if received_quantity > 0 &&
      (match notes with | some n => n.length ≤ 300 | none => true) then
    some { received_quantity := received_quantity,
           condition_ok := condition_ok, notes := notes }
  else none

/-- The reception endpoint: FastAPI rejects the request with a 422 before
`TransferService.confirm_reception` runs when the body fails validation. -/
def confirm_reception_endpoint (db : DB) (transfer_id : Nat)
    (received_quantity : Int) (condition_ok : Bool) (notes : Option String)
    (requester : UserT) : TResult Bool × DB :=
  match parse_reception_confirmation received_quantity condition_ok notes with
  | none =>
    (.error (.validationError "received_quantity: Input should be greater than 0"),
      db)
  | some confirmation => confirm_reception db transfer_id confirmation requester

/-- The seven state-machine operations of the transfer workflow, as one
step type. -/
inductive Op where
  | accept (acceptance : TransferAcceptance) (warehouse_keeper : UserT)
  | claimCourier (transfer_id : Nat) (acceptance : CourierAcceptance)
      (courier : UserT)
  | pickup (transfer_id : Nat) (confirmation : PickupConfirmation)
      (courier : UserT)
  | deliverCourier (transfer_id : Nat) (delivery : DeliveryConfirmation)
      (warehouse_keeper : UserT)
  | delivery (transfer_id : Nat) (confirmation : DeliveryConfirmation)
      (courier : UserT)
  | reception (transfer_id : Nat) (confirmation : ReceptionConfirmation)
      (requester : UserT)
  | cancel (transfer_id : Nat) (requester : UserT) (reason : String)
deriving Repr, DecidableEq

/-- Run one state-machine operation, keeping the error and the new state. -/
def runOp : Op → DB → TResult Unit × DB
  | .accept a wk, db =>
    let r := accept_transfer_request db a wk
    (r.1.map (fun _ => ()), r.2)
  | .claimCourier tid a c, db =>
    let r := accept_courier_request db tid a c
    (r.1.map (fun _ => ()), r.2)
  | .pickup tid c courier, db =>
    let r := confirm_pickup db tid c courier
    (r.1.map (fun _ => ()), r.2)
  | .deliverCourier tid d wk, db =>
    let r := deliver_to_courier db tid d wk
    (r.1.map (fun _ => ()), r.2)
  | .delivery tid c courier, db =>
    let r := confirm_delivery db tid c courier
    (r.1.map (fun _ => ()), r.2)
  | .reception tid c requester, db =>
    let r := confirm_reception db tid c requester
    (r.1.map (fun _ => ()), r.2)
  | .cancel tid requester reason, db =>
    let r := cancel_transfer_request db tid requester reason
    (r.1.map (fun _ => ()), r.2)

/-! ## Spec-side definitions and observations -/

/-- The transition graph of spec section 4.1 (spec-side definition, written
from the spec's edge list for comparison against the code's behavior). -/
def specAllowedEdge : String → String → Bool
  | "pending", "accepted" => true
  | "pending", "cancelled" => true
  | "accepted", "cancelled" => true
  | "accepted", "courier_assigned" => true
  | "courier_assigned", "in_transit" => true
  | "in_transit", "delivered" => true
  | "in_transit", "delivery_failed" => true
  | "delivered", "completed" => true
  | "delivered", "reception_issues" => true
  | _, _ => false

/-- The section 4.1 graph extended with the one extra edge the code
actually performs (`deliver_to_courier` with `delivery_successful=False`). -/
def extendedEdge (a b : String) : Bool :=
  specAllowedEdge a b || (a == "courier_assigned" && b == "delivery_failed")

/-- The status of the transfer with the given id, when it exists. -/
def statusAt (db : DB) (transfer_id : Nat) : Option String :=
  (get_transfer_by_id db transfer_id).map (fun t => t.status)

/-- The physical quantity of the size row with the given id. -/
def qtyAt (db : DB) (size_id : Nat) : Option Int :=
  (db.product_sizes.find? (fun ps => ps.id == size_id)).map
    (fun ps => ps.quantity)

/-- The quantity of the (reference code, size, location) variant, looked up
the way the reception helper does: product row at the location first, then
its size row. -/
def variant_qty (db : DB) (reference_code sz locName : String) : Option Int :=
  match db.products.find? (fun p =>
      p.reference_code == reference_code && p.location_name == locName) with
  | none => none
  | some p =>
    (db.product_sizes.find? (fun ps =>
        ps.product_id == p.id && ps.size == sz)).map (fun ps => ps.quantity)

/-- Well-formedness of a database state: primary keys are unique and the
autoincrement counter for products is fresh. -/
def DB.WF (db : DB) : Prop :=
  (db.transfers.map (fun t => t.id)).Nodup ∧
  (db.product_sizes.map (fun ps => ps.id)).Nodup ∧
  (∀ p ∈ db.products, p.id < db.next_product_id) ∧
  (∀ ps ∈ db.product_sizes, ps.product_id < db.next_product_id)

instance (db : DB) : Decidable db.WF := by
  unfold DB.WF; infer_instance

/-! ## Concrete demonstration states -/

/-- A freshly created transfer request: 3 units of "NK-AF1-001" size 42 from
location 1 (Bodega Central) to location 2, requested by user 10. -/
def baseTransfer : TransferRow :=
  { id := 1, requester_id := 10, source_location_id := 1,
    destination_location_id := 2,
    sneaker_reference_code := "NK-AF1-001", brand := "Nike", model := "AF1",
    size := "42", quantity := 3, purpose := "cliente",
    pickup_type := "corredor", destination_type := "bodega",
    courier_id := none, warehouse_keeper_id := none, status := "pending",
    requested_at := 0, accepted_at := none, picked_up_at := none,
    delivered_at := none, notes := none, confirmed_reception_at := none,
    received_quantity := none, reception_notes := none,
    courier_accepted_at := none, courier_notes := none,
    estimated_pickup_time := none, pickup_notes := none }

/-- The product at the source location. -/
def demoProduct : ProductRow :=
  { id := 1, reference_code := "NK-AF1-001", description := "Nike AF1",
    brand := "Nike", model := "AF1", color_info := some "Blanco",
    location_name := "Bodega Central", unit_price := 300, box_price := 3000,
    is_active := 1, image_url := none, video_url := none }

/-- Stock of 5 units of size 42 at the source location. -/
def demoSize : ProductSizeRow :=
  { id := 1, product_id := 1, size := "42", quantity := 5,
    quantity_exhibition := 0, location_name := "Bodega Central" }

/-- A demonstration database around one transfer row. -/
def demoDB (t : TransferRow) : DB :=
  { locations := [⟨1, "Bodega Central"⟩, ⟨2, "Local Norte"⟩],
    products := [demoProduct],
    product_sizes := [demoSize],
    transfers := [t],
    inventory_changes := [],
    next_transfer_id := 2, next_product_id := 2, next_size_id := 2,
    next_change_id := 1, now := 100 }

/-- `baseTransfer` after warehouse acceptance, not yet claimed. -/
def acceptedTransfer : TransferRow :=
  { baseTransfer with
    status := "accepted",
    warehouse_keeper_id := some 20,
    accepted_at := some 10 }

/-- `baseTransfer` after warehouse acceptance and courier claim. -/
def caTransfer : TransferRow :=
  { baseTransfer with
    status := "courier_assigned",
    warehouse_keeper_id := some 20,
    courier_id := some 30,
    accepted_at := some 10,
    courier_accepted_at := some 20 }

/-- `baseTransfer` delivered and awaiting reception. -/
def deliveredTransfer : TransferRow :=
  { caTransfer with
    status := "delivered",
    picked_up_at := some 30,
    delivered_at := some 40 }

/-- Source stock depleted to 2 (below the requested quantity 3). -/
def lowStock : ProductSizeRow := { demoSize with quantity := 2 }

/-- The hand-off state after stock disappeared concurrently. -/
def lowStockDB : DB := { demoDB caTransfer with product_sizes := [lowStock] }

/-- A product with the same reference code at a third location, sitting
BEFORE the source-location product in table order. -/
def otherProduct : ProductRow :=
  { id := 5, reference_code := "NK-AF1-001", description := "Nike AF1",
    brand := "Nike", model := "AF1", color_info := some "Rojo",
    location_name := "Otra Tienda", unit_price := 999, box_price := 9990,
    is_active := 1, image_url := some "otra.jpg", video_url := none }

/-- A delivered transfer in a database where the first product matching the
reference code is NOT the source-location product. -/
def twoProductDB : DB :=
  { demoDB deliveredTransfer with products := [otherProduct, demoProduct] }

/-- The audit record a hand-off decrement of 5 → 2 would have produced. -/
def pickupChange : InventoryChangeRow :=
  { id := 7, product_id := 1, change_type := "transfer_pickup",
    size := some "42", quantity_before := 5, quantity_after := 2,
    reference_id := none, user_id := 20, notes := "" }

/-- A state holding that record with the live quantity still at its
`quantity_after`. -/
def reversalDB : DB :=
  { demoDB caTransfer with
    inventory_changes := [pickupChange],
    product_sizes := [lowStock] }

/-! ## Helper lemmas -/

theorem applyStatusUpdate_id (now : Nat) (st : String) (kw : UpdateKwargs)
    (t : TransferRow) : (applyStatusUpdate now st kw t).id = t.id := rfl

theorem applyStatusUpdate_status (now : Nat) (st : String) (kw : UpdateKwargs)
    (t : TransferRow) : (applyStatusUpdate now st kw t).status = st := rfl

theorem update_frame (db : DB) (tid : Nat) (st : String) (kw : UpdateKwargs) :
    (update_transfer_status db tid st kw).2.products = db.products ∧
    (update_transfer_status db tid st kw).2.product_sizes = db.product_sizes ∧
    (update_transfer_status db tid st kw).2.inventory_changes =
      db.inventory_changes ∧
    (update_transfer_status db tid st kw).2.locations = db.locations :=
  ⟨rfl, rfl, rfl, rfl⟩

theorem update_transfers_ids (db : DB) (tid : Nat) (st : String)
    (kw : UpdateKwargs) :
    (update_transfer_status db tid st kw).2.transfers.map (fun t => t.id) =
      db.transfers.map (fun t => t.id) := by
  unfold update_transfer_status
  induction db.transfers with
  | nil => rfl
  | cons t ts ih =>
    simp only [List.map_cons, List.map_map] at ih ⊢
    refine congrArg₂ _ ?_ ih
    by_cases h : t.id == tid <;> simp [h, applyStatusUpdate_id]

theorem find?_update_list (tid : Nat) (g : TransferRow → TransferRow)
    (hg : ∀ t, (g t).id = t.id) (l : List TransferRow) :
    (l.map (fun t => if t.id == tid then g t else t)).find?
        (fun t => t.id == tid) =
      (l.find? (fun t => t.id == tid)).map g := by
  induction l with
  | nil => rfl
  | cons t ts ih =>
    simp only [List.map_cons]
    by_cases h : (t.id == tid) = true
    · have hgt : ((g t).id == tid) = true := by rw [hg]; exact h
      rw [if_pos h,
        List.find?_cons_of_pos (p := fun (x : TransferRow) => x.id == tid) _ hgt,
        List.find?_cons_of_pos (p := fun (x : TransferRow) => x.id == tid) _ h]
      rfl
    · rw [if_neg h,
        List.find?_cons_of_neg (p := fun (x : TransferRow) => x.id == tid) _ h,
        List.find?_cons_of_neg (p := fun (x : TransferRow) => x.id == tid) _ h, ih]

theorem get_after_update (db : DB) (tid : Nat) (st : String)
    (kw : UpdateKwargs) :
    get_transfer_by_id (update_transfer_status db tid st kw).2 tid =
      (get_transfer_by_id db tid).map (applyStatusUpdate db.now st kw) :=
  find?_update_list tid (applyStatusUpdate db.now st kw) (fun _ => rfl)
    db.transfers

theorem mem_update_transfers (db : DB) (tid : Nat) (st : String)
    (kw : UpdateKwargs) {t' : TransferRow}
    (h : t' ∈ (update_transfer_status db tid st kw).2.transfers) :
    ∃ t ∈ db.transfers,
      (t.id ≠ tid ∧ t' = t) ∨
        (t.id = tid ∧ t' = applyStatusUpdate db.now st kw t) := by
  unfold update_transfer_status at h
  simp only at h
  rcases List.mem_map.mp h with ⟨t, ht, heq⟩
  refine ⟨t, ht, ?_⟩
  by_cases hid : t.id == tid
  · right
    refine ⟨by simpa using hid, ?_⟩
    rw [← heq, if_pos hid]
  · left
    refine ⟨by simpa using hid, ?_⟩
    rw [← heq, if_neg hid]

theorem nodup_id_inj {l : List TransferRow}
    (hnd : (l.map (fun t => t.id)).Nodup) {a b : TransferRow}
    (ha : a ∈ l) (hb : b ∈ l) (hab : a.id = b.id) : a = b :=
  List.inj_on_of_nodup_map hnd ha hb hab

/-- A status change persisted by one `update_transfer_status` call: either
the row is untouched or it is the targeted row and its new status is `st`. -/
theorem status_edge_of_update (db : DB)
    (hnd : (db.transfers.map (fun t => t.id)).Nodup)
    (tid : Nat) (st : String) (kw : UpdateKwargs) {t t' : TransferRow}
    (ht : t ∈ db.transfers)
    (ht' : t' ∈ (update_transfer_status db tid st kw).2.transfers)
    (hid : t'.id = t.id) :
    t' = t ∨ (t.id = tid ∧ t'.status = st) := by
  obtain ⟨a, ha, hcase⟩ := mem_update_transfers db tid st kw ht'
  rcases hcase with ⟨hne, rfl⟩ | ⟨heq, rfl⟩
  · exact Or.inl (nodup_id_inj hnd ha ht hid)
  · right
    have hid' : t.id = tid := by
      rw [← hid, applyStatusUpdate_id, heq]
    exact ⟨hid', applyStatusUpdate_status _ _ _ _⟩

theorem except_map_eq_error {α β : Type} (f : α → β)
    (x : Except ApiError α) (e : ApiError) :
    x.map f = .error e ↔ x = .error e := by
  cases x <;> simp [Except.map]

theorem pickup_inv_transfers (db : DB) (t : TransferRow) (lid : Nat) :
    (update_inventory_on_pickup db t lid).2.transfers = db.transfers := by
  unfold update_inventory_on_pickup
  repeat' split
  all_goals rfl

theorem reception_inv_transfers (db : DB) (t : TransferRow) (q : Int)
    (lid : Nat) :
    (update_inventory_on_reception db t q lid).2.transfers = db.transfers := by
  unfold update_inventory_on_reception
  repeat' split
  all_goals rfl

theorem pickup_inv_now (db : DB) (t : TransferRow) (lid : Nat) :
    (update_inventory_on_pickup db t lid).2.now = db.now := by
  unfold update_inventory_on_pickup
  repeat' split
  all_goals rfl

theorem reception_inv_now (db : DB) (t : TransferRow) (q : Int) (lid : Nat) :
    (update_inventory_on_reception db t q lid).2.now = db.now := by
  unfold update_inventory_on_reception
  repeat' split
  all_goals rfl

theorem pickup_inv_false (db : DB) (t : TransferRow) (lid : Nat)
    (h : (update_inventory_on_pickup db t lid).1 = false) :
    (update_inventory_on_pickup db t lid).2 = db := by
  unfold update_inventory_on_pickup at h ⊢
  cases hl : find_location db lid with
  | none => simp only [hl]
  | some loc =>
    simp only [hl] at h ⊢
    cases hs : find_active_size db t.sneaker_reference_code t.size loc.name with
    | none => simp only [hs]
    | some ps =>
      simp only [hs] at h ⊢
      by_cases hq : ps.quantity < t.quantity
      · simp only [if_pos hq]
      · simp only [if_neg hq] at h
        exact Bool.noConfusion h

theorem reception_inv_false (db : DB) (t : TransferRow) (q : Int) (lid : Nat)
    (h : (update_inventory_on_reception db t q lid).1 = false) :
    (update_inventory_on_reception db t q lid).2 = db := by
  unfold update_inventory_on_reception at h ⊢
  cases hl : find_location db lid with
  | none => simp only [hl]
  | some loc =>
    simp only [hl] at h ⊢
    cases he : db.products.find? (fun p =>
        p.reference_code == t.sneaker_reference_code &&
          p.location_name == loc.name) with
    | some existing_product =>
      simp only [he] at h
      cases hs : db.product_sizes.find? (fun ps =>
          ps.product_id == existing_product.id && ps.size == t.size) <;>
          simp only [hs] at h <;> exact Bool.noConfusion h
    | none =>
      simp only [he] at h
      cases hsrc : db.products.find? (fun p =>
          p.reference_code == t.sneaker_reference_code) <;>
          simp only [hsrc] at h <;> exact Bool.noConfusion h

/-- Two rows of a well-keyed table with the same id are the same row. -/
theorem edge_refl (db : DB)
    (hnd : (db.transfers.map (fun t => t.id)).Nodup) {t t' : TransferRow}
    (ht : t ∈ db.transfers) (ht' : t' ∈ db.transfers) (hid : t'.id = t.id) :
    t'.status = t.status := by
  rw [nodup_id_inj hnd ht' ht hid]

/-- Core step for the transition-graph theorem: a status change persisted by
an `update_transfer_status` call guarded on the found row's status follows
the supplied edge. -/
theorem edge_core (db db1 : DB) (hT : db1.transfers = db.transfers)
    (hnd : (db.transfers.map (fun t => t.id)).Nodup)
    (tid : Nat) (st : String) (kw : UpdateKwargs) {t0 t t' : TransferRow}
    (hf : get_transfer_by_id db tid = some t0)
    (ht : t ∈ db.transfers)
    (ht' : t' ∈ (update_transfer_status db1 tid st kw).2.transfers)
    (hid : t'.id = t.id)
    (hedge : extendedEdge t0.status st = true) :
    t'.status = t.status ∨ extendedEdge t.status t'.status = true := by
  have ht1 : t ∈ db1.transfers := by rw [hT]; exact ht
  have hnd1 : (db1.transfers.map (fun x => x.id)).Nodup := by
    rw [hT]; exact hnd
  rcases status_edge_of_update db1 hnd1 tid st kw ht1 ht' hid with he | ⟨hidt, hst⟩
  · exact Or.inl (by rw [he])
  · right
    have ht0mem : t0 ∈ db.transfers := List.mem_of_find?_eq_some hf
    have ht0id : t0.id = tid := by simpa using List.find?_some hf
    have hte : t = t0 := nodup_id_inj hnd ht ht0mem (by rw [hidt, ht0id])
    rw [hte, hst]
    exact hedge

theorem deliver_edges (db : DB) (tid : Nat) (d : DeliveryConfirmation)
    (wk : UserT) (hnd : (db.transfers.map (fun t => t.id)).Nodup)
    {t t' : TransferRow} (ht : t ∈ db.transfers)
    (ht' : t' ∈ (deliver_to_courier db tid d wk).2.transfers)
    (hid : t'.id = t.id) :
    t'.status = t.status ∨ extendedEdge t.status t'.status = true := by
  unfold deliver_to_courier at ht'
  cases hf : get_transfer_by_id db tid with
  | none =>
    simp only [hf] at ht'
    exact Or.inl (edge_refl db hnd ht ht' hid)
  | some t0 =>
    simp only [hf] at ht'
    by_cases h1 : (t0.warehouse_keeper_id != some wk.id) = true
    · rw [if_pos h1] at ht'
      exact Or.inl (edge_refl db hnd ht ht' hid)
    · rw [if_neg h1] at ht'
      by_cases h2 : (t0.status != "courier_assigned") = true
      · rw [if_pos h2] at ht'
        exact Or.inl (edge_refl db hnd ht ht' hid)
      · rw [if_neg h2] at ht'
        have hst0 : t0.status = "courier_assigned" := by simpa using h2
        by_cases h3 : d.delivery_successful = true
        · rw [if_pos h3] at ht'
          by_cases h4 :
              (update_inventory_on_pickup db t0 wk.location_id).1 = true
          · rw [if_pos h4] at ht'
            exact edge_core db _ (pickup_inv_transfers db t0 wk.location_id)
              hnd tid "in_transit" _ hf ht ht' hid
              (by rw [hst0]; rfl)
          · rw [if_neg h4] at ht'
            have hdb : (update_inventory_on_pickup db t0 wk.location_id).2 = db :=
              pickup_inv_false db t0 wk.location_id (by simpa using h4)
            rw [hdb] at ht'
            exact Or.inl (edge_refl db hnd ht ht' hid)
        · rw [if_neg h3] at ht'
          exact edge_core db db rfl hnd tid "delivery_failed" _ hf ht ht' hid
            (by rw [hst0]; rfl)

theorem update_fst (db : DB) (tid : Nat) (st : String) (kw : UpdateKwargs) :
    (update_transfer_status db tid st kw).1 =
      (get_transfer_by_id db tid).isSome := rfl

theorem ite_pair_snd {α β : Type} (c : Prop) [Decidable c] (a b : α)
    (x : β) : (if c then (a, x) else (b, x)).2 = x := by
  split <;> rfl

theorem match_opt_pair_snd {α β γ : Type} (o : Option γ) (f : γ → α) (e : α)
    (x : β) :
    (match o with | some u => (f u, x) | none => (e, x)).2 = x := by
  cases o <;> rfl

theorem accept_edges (db : DB) (a : TransferAcceptance) (wk : UserT)
    (hnd : (db.transfers.map (fun t => t.id)).Nodup)
    {t t' : TransferRow} (ht : t ∈ db.transfers)
    (ht' : t' ∈ (accept_transfer_request db a wk).2.transfers)
    (hid : t'.id = t.id) :
    t'.status = t.status ∨ extendedEdge t.status t'.status = true := by
  unfold accept_transfer_request at ht'
  cases hf : get_transfer_by_id db a.transfer_request_id with
  | none =>
    simp only [hf] at ht'
    exact Or.inl (edge_refl db hnd ht ht' hid)
  | some t0 =>
    simp only [hf] at ht'
    by_cases h1 : (t0.status != "pending") = true
    · rw [if_pos h1] at ht'
      exact Or.inl (edge_refl db hnd ht ht' hid)
    · rw [if_neg h1] at ht'
      have hst0 : t0.status = "pending" := by simpa using h1
      by_cases h2 : a.accepted = true
      · rw [if_pos h2] at ht'
        by_cases h3 : (!(check_product_availability db
            t0.sneaker_reference_code t0.size t0.source_location_id).available ||
            (check_product_availability db t0.sneaker_reference_code t0.size
              t0.source_location_id).available_stock < t0.quantity) = true
        · rw [if_pos h3] at ht'
          exact Or.inl (edge_refl db hnd ht ht' hid)
        · rw [if_neg h3] at ht'
          exact Or.inl (edge_refl db hnd ht ht' hid)
      · rw [if_neg h2] at ht'
        exact edge_core db db rfl hnd a.transfer_request_id "cancelled" _ hf
          ht ht' hid (by rw [hst0]; rfl)

theorem claim_edges (db : DB) (tid : Nat) (a : CourierAcceptance)
    (courier : UserT) (hnd : (db.transfers.map (fun t => t.id)).Nodup)
    {t t' : TransferRow} (ht : t ∈ db.transfers)
    (ht' : t' ∈ (accept_courier_request db tid a courier).2.transfers)
    (hid : t'.id = t.id) :
    t'.status = t.status ∨ extendedEdge t.status t'.status = true := by
  unfold accept_courier_request at ht'
  cases hf : get_transfer_by_id db tid with
  | none =>
    simp only [hf] at ht'
    exact Or.inl (edge_refl db hnd ht ht' hid)
  | some t0 =>
    simp only [hf] at ht'
    by_cases h1 : (t0.status != "accepted" || t0.courier_id.isSome) = true
    · rw [if_pos h1] at ht'
      exact Or.inl (edge_refl db hnd ht ht' hid)
    · rw [if_neg h1] at ht'
      have hst0 : t0.status = "accepted" := by
        have h1' := h1
        simp only [Bool.or_eq_true, not_or, bne_iff_ne, ne_eq, not_not] at h1'
        exact h1'.1
      exact edge_core db db rfl hnd tid "courier_assigned" _ hf ht ht' hid
        (by rw [hst0]; rfl)

theorem pickup_edges (db : DB) (tid : Nat) (c : PickupConfirmation)
    (courier : UserT) (hnd : (db.transfers.map (fun t => t.id)).Nodup)
    {t t' : TransferRow} (ht : t ∈ db.transfers)
    (ht' : t' ∈ (confirm_pickup db tid c courier).2.transfers)
    (hid : t'.id = t.id) :
    t'.status = t.status ∨ extendedEdge t.status t'.status = true := by
  unfold confirm_pickup at ht'
  cases hf : get_transfer_by_id db tid with
  | none =>
    simp only [hf] at ht'
    exact Or.inl (edge_refl db hnd ht ht' hid)
  | some t0 =>
    simp only [hf] at ht'
    by_cases h1 : (t0.courier_id != some courier.id) = true
    · rw [if_pos h1] at ht'
      exact Or.inl (edge_refl db hnd ht ht' hid)
    · rw [if_neg h1] at ht'
      by_cases h2 : (t0.status != "courier_assigned") = true
      · rw [if_pos h2] at ht'
        exact Or.inl (edge_refl db hnd ht ht' hid)
      · rw [if_neg h2] at ht'
        have hst0 : t0.status = "courier_assigned" := by simpa using h2
        exact edge_core db db rfl hnd tid "in_transit" _ hf ht ht' hid
          (by rw [hst0]; rfl)

theorem delivery_edges (db : DB) (tid : Nat) (c : DeliveryConfirmation)
    (courier : UserT) (hnd : (db.transfers.map (fun t => t.id)).Nodup)
    {t t' : TransferRow} (ht : t ∈ db.transfers)
    (ht' : t' ∈ (confirm_delivery db tid c courier).2.transfers)
    (hid : t'.id = t.id) :
    t'.status = t.status ∨ extendedEdge t.status t'.status = true := by
  unfold confirm_delivery at ht'
  cases hf : get_transfer_by_id db tid with
  | none =>
    simp only [hf] at ht'
    exact Or.inl (edge_refl db hnd ht ht' hid)
  | some t0 =>
    simp only [hf] at ht'
    by_cases h1 : (t0.courier_id != some courier.id) = true
    · rw [if_pos h1] at ht'
      exact Or.inl (edge_refl db hnd ht ht' hid)
    · rw [if_neg h1] at ht'
      by_cases h2 : (t0.status != "in_transit") = true
      · rw [if_pos h2] at ht'
        exact Or.inl (edge_refl db hnd ht ht' hid)
      · rw [if_neg h2] at ht'
        have hst0 : t0.status = "in_transit" := by simpa using h2
        by_cases h3 : c.delivery_successful = true
        · rw [if_pos h3] at ht'
          exact edge_core db db rfl hnd tid "delivered" _ hf ht ht' hid
            (by rw [hst0]; rfl)
        · rw [if_neg h3] at ht'
          exact edge_core db db rfl hnd tid "delivery_failed" _ hf ht ht' hid
            (by rw [hst0]; rfl)

theorem reception_edges (db : DB) (tid : Nat) (c : ReceptionConfirmation)
    (requester : UserT) (hnd : (db.transfers.map (fun t => t.id)).Nodup)
    {t t' : TransferRow} (ht : t ∈ db.transfers)
    (ht' : t' ∈ (confirm_reception db tid c requester).2.transfers)
    (hid : t'.id = t.id) :
    t'.status = t.status ∨ extendedEdge t.status t'.status = true := by
  unfold confirm_reception at ht'
  cases hf : get_transfer_by_id db tid with
  | none =>
    simp only [hf] at ht'
    exact Or.inl (edge_refl db hnd ht ht' hid)
  | some t0 =>
    simp only [hf] at ht'
    by_cases h1 : (t0.requester_id != requester.id) = true
    · rw [if_pos h1] at ht'
      exact Or.inl (edge_refl db hnd ht ht' hid)
    · rw [if_neg h1] at ht'
      by_cases h2 : (t0.status != "delivered") = true
      · rw [if_pos h2] at ht'
        exact Or.inl (edge_refl db hnd ht ht' hid)
      · rw [if_neg h2] at ht'
        have hst0 : t0.status = "delivered" := by simpa using h2
        by_cases h3 : (c.condition_ok && c.received_quantity > 0) = true
        · rw [if_pos h3] at ht'
          by_cases h4 : (update_inventory_on_reception db t0
              c.received_quantity requester.location_id).1 = true
          · rw [if_pos h4] at ht'
            exact edge_core db _
              (reception_inv_transfers db t0 c.received_quantity
                requester.location_id)
              hnd tid "completed" _ hf ht ht' hid (by rw [hst0]; rfl)
          · rw [if_neg h4] at ht'
            have hdb : (update_inventory_on_reception db t0 c.received_quantity
                requester.location_id).2 = db :=
              reception_inv_false db t0 c.received_quantity
                requester.location_id (by simpa using h4)
            rw [hdb] at ht'
            exact Or.inl (edge_refl db hnd ht ht' hid)
        · rw [if_neg h3] at ht'
          exact edge_core db db rfl hnd tid "reception_issues" _ hf ht ht' hid
            (by rw [hst0]; rfl)

theorem cancel_edges (db : DB) (tid : Nat) (requester : UserT)
    (reason : String) (hnd : (db.transfers.map (fun t => t.id)).Nodup)
    {t t' : TransferRow} (ht : t ∈ db.transfers)
    (ht' : t' ∈ (cancel_transfer_request db tid requester reason).2.transfers)
    (hid : t'.id = t.id) :
    t'.status = t.status ∨ extendedEdge t.status t'.status = true := by
  unfold cancel_transfer_request at ht'
  rw [ite_pair_snd] at ht'
  exact Or.inl (edge_refl db hnd ht ht' hid)

theorem accept_error_frame (db : DB) (a : TransferAcceptance) (wk : UserT)
    (e : ApiError) (h : (accept_transfer_request db a wk).1 = .error e) :
    (accept_transfer_request db a wk).2 = db := by
  unfold accept_transfer_request at h ⊢
  cases hf : get_transfer_by_id db a.transfer_request_id with
  | none => simp only [hf]
  | some t0 =>
    simp only [hf] at h ⊢
    by_cases h1 : (t0.status != "pending") = true
    · rw [if_pos h1]
    · rw [if_neg h1] at h ⊢
      by_cases h2 : a.accepted = true
      · rw [if_pos h2] at h ⊢
        by_cases h3 : (!(check_product_availability db
            t0.sneaker_reference_code t0.size t0.source_location_id).available ||
            (check_product_availability db t0.sneaker_reference_code t0.size
              t0.source_location_id).available_stock < t0.quantity) = true
        · rw [if_pos h3]
        · rw [if_neg h3]
      · rw [if_neg h2] at h
        simp only [get_after_update, hf, Option.map] at h
        exact Except.noConfusion h

theorem claim_error_frame (db : DB) (tid : Nat) (a : CourierAcceptance)
    (courier : UserT) (e : ApiError)
    (h : (accept_courier_request db tid a courier).1 = .error e) :
    (accept_courier_request db tid a courier).2 = db := by
  unfold accept_courier_request at h ⊢
  cases hf : get_transfer_by_id db tid with
  | none => simp only [hf]
  | some t0 =>
    simp only [hf] at h ⊢
    by_cases h1 : (t0.status != "accepted" || t0.courier_id.isSome) = true
    · rw [if_pos h1]
    · rw [if_neg h1] at h
      simp only [update_fst, hf, Option.isSome_some, Bool.not_true,
        Bool.false_eq_true, if_false, get_after_update, Option.map] at h
      exact Except.noConfusion h

theorem pickup_error_frame (db : DB) (tid : Nat) (c : PickupConfirmation)
    (courier : UserT) (e : ApiError)
    (h : (confirm_pickup db tid c courier).1 = .error e) :
    (confirm_pickup db tid c courier).2 = db := by
  unfold confirm_pickup at h ⊢
  cases hf : get_transfer_by_id db tid with
  | none => simp only [hf]
  | some t0 =>
    simp only [hf] at h ⊢
    by_cases h1 : (t0.courier_id != some courier.id) = true
    · rw [if_pos h1]
    · rw [if_neg h1] at h ⊢
      by_cases h2 : (t0.status != "courier_assigned") = true
      · rw [if_pos h2]
      · rw [if_neg h2] at h
        simp only [update_fst, hf, Option.isSome_some, Bool.not_true,
          Bool.false_eq_true, if_false] at h
        exact Except.noConfusion h

theorem deliver_error_frame (db : DB) (tid : Nat) (d : DeliveryConfirmation)
    (wk : UserT) (e : ApiError)
    (h : (deliver_to_courier db tid d wk).1 = .error e) :
    (deliver_to_courier db tid d wk).2 = db := by
  unfold deliver_to_courier at h ⊢
  cases hf : get_transfer_by_id db tid with
  | none => simp only [hf]
  | some t0 =>
    simp only [hf] at h ⊢
    by_cases h1 : (t0.warehouse_keeper_id != some wk.id) = true
    · rw [if_pos h1]
    · rw [if_neg h1] at h ⊢
      by_cases h2 : (t0.status != "courier_assigned") = true
      · rw [if_pos h2]
      · rw [if_neg h2] at h ⊢
        by_cases h3 : d.delivery_successful = true
        · rw [if_pos h3] at h ⊢
          by_cases h4 :
              (update_inventory_on_pickup db t0 wk.location_id).1 = true
          · rw [if_pos h4] at h
            exact Except.noConfusion h
          · rw [if_neg h4]
            exact pickup_inv_false db t0 wk.location_id (by simpa using h4)
        · rw [if_neg h3] at h
          exact Except.noConfusion h

theorem delivery_error_frame (db : DB) (tid : Nat) (c : DeliveryConfirmation)
    (courier : UserT) (e : ApiError)
    (h : (confirm_delivery db tid c courier).1 = .error e) :
    (confirm_delivery db tid c courier).2 = db := by
  unfold confirm_delivery at h ⊢
  cases hf : get_transfer_by_id db tid with
  | none => simp only [hf]
  | some t0 =>
    simp only [hf] at h ⊢
    by_cases h1 : (t0.courier_id != some courier.id) = true
    · rw [if_pos h1]
    · rw [if_neg h1] at h ⊢
      by_cases h2 : (t0.status != "in_transit") = true
      · rw [if_pos h2]
      · rw [if_neg h2] at h
        by_cases h3 : c.delivery_successful = true
        · rw [if_pos h3] at h
          exact Except.noConfusion h
        · rw [if_neg h3] at h
          exact Except.noConfusion h

theorem reception_error_frame (db : DB) (tid : Nat)
    (c : ReceptionConfirmation) (requester : UserT) (e : ApiError)
    (h : (confirm_reception db tid c requester).1 = .error e) :
    (confirm_reception db tid c requester).2 = db := by
  unfold confirm_reception at h ⊢
  cases hf : get_transfer_by_id db tid with
  | none => simp only [hf]
  | some t0 =>
    simp only [hf] at h ⊢
    by_cases h1 : (t0.requester_id != requester.id) = true
    · rw [if_pos h1]
    · rw [if_neg h1] at h ⊢
      by_cases h2 : (t0.status != "delivered") = true
      · rw [if_pos h2]
      · rw [if_neg h2] at h ⊢
        by_cases h3 : (c.condition_ok && c.received_quantity > 0) = true
        · rw [if_pos h3] at h ⊢
          by_cases h4 : (update_inventory_on_reception db t0
              c.received_quantity requester.location_id).1 = true
          · rw [if_pos h4] at h
            exact Except.noConfusion h
          · rw [if_neg h4]
            exact reception_inv_false db t0 c.received_quantity
              requester.location_id (by simpa using h4)
        · rw [if_neg h3] at h
          exact Except.noConfusion h

theorem cancel_error_frame (db : DB) (tid : Nat) (requester : UserT)
    (reason : String) (e : ApiError)
    (h : (cancel_transfer_request db tid requester reason).1 = .error e) :
    (cancel_transfer_request db tid requester reason).2 = db := by
  unfold cancel_transfer_request
  rw [ite_pair_snd]

/-- Claim C1 (amended): for every transfer and every state-machine operation
(accept, claim_courier, confirm_pickup, deliver_to_courier, confirm_delivery,
confirm_reception, cancel), each persisted status change follows one of the
edges of the section 4.1 transition graph EXTENDED with the edge
COURIER_ASSIGNED → DELIVERY_FAILED (which `deliver_to_courier` performs on
`delivery_successful=false`), and any operation that returns an error leaves
the database — in particular every transfer's status — unchanged.  The
rejection does not carry a dedicated InvalidTransition error type: it is an
HTTP 400 / 409 failure naming at most the current state. -/
theorem C1_transitions (op : Op) (db : DB)
    (hnd : (db.transfers.map (fun t => t.id)).Nodup)
    (t : TransferRow) (ht : t ∈ db.transfers)
    (t' : TransferRow) (ht' : t' ∈ (runOp op db).2.transfers)
    (hid : t'.id = t.id) :
    (t'.status = t.status ∨ extendedEdge t.status t'.status = true) ∧
    (∀ e, (runOp op db).1 = Except.error e → (runOp op db).2 = db) := by
  cases op with
  | accept a wk =>
    exact ⟨accept_edges db a wk hnd ht ht' hid, fun e he =>
      accept_error_frame db a wk e ((except_map_eq_error _ _ e).mp he)⟩
  | claimCourier tid a c =>
    exact ⟨claim_edges db tid a c hnd ht ht' hid, fun e he =>
      claim_error_frame db tid a c e ((except_map_eq_error _ _ e).mp he)⟩
  | pickup tid c courier =>
    exact ⟨pickup_edges db tid c courier hnd ht ht' hid, fun e he =>
      pickup_error_frame db tid c courier e ((except_map_eq_error _ _ e).mp he)⟩
  | deliverCourier tid d wk =>
    exact ⟨deliver_edges db tid d wk hnd ht ht' hid, fun e he =>
      deliver_error_frame db tid d wk e ((except_map_eq_error _ _ e).mp he)⟩
  | delivery tid c courier =>
    exact ⟨delivery_edges db tid c courier hnd ht ht' hid, fun e he =>
      delivery_error_frame db tid c courier e
        ((except_map_eq_error _ _ e).mp he)⟩
  | reception tid c requester =>
    exact ⟨reception_edges db tid c requester hnd ht ht' hid, fun e he =>
      reception_error_frame db tid c requester e
        ((except_map_eq_error _ _ e).mp he)⟩
  | cancel tid requester reason =>
    exact ⟨cancel_edges db tid requester reason hnd ht ht' hid, fun e he =>
      cancel_error_frame db tid requester reason e
        ((except_map_eq_error _ _ e).mp he)⟩

/-- Claim C1 witness: the amended theorem applied at a concrete state — a
courier claim attempted on a still-PENDING transfer is rejected and changes
nothing. -/
theorem C1_transitions_witness :
    (baseTransfer.status = baseTransfer.status ∨
      extendedEdge baseTransfer.status baseTransfer.status = true) ∧
    (∀ e,
      (runOp (.claimCourier 1 { estimated_pickup_time := 20, notes := none }
        ⟨30, 3⟩) (demoDB baseTransfer)).1 = Except.error e →
      (runOp (.claimCourier 1 { estimated_pickup_time := 20, notes := none }
        ⟨30, 3⟩) (demoDB baseTransfer)).2 = demoDB baseTransfer) :=
  C1_transitions
    (.claimCourier 1 { estimated_pickup_time := 20, notes := none } ⟨30, 3⟩)
    (demoDB baseTransfer) (by decide) baseTransfer (by decide) baseTransfer
    (by decide) rfl

/-- Claim C1 counterexample: as literally stated the claim is false — from a
concrete COURIER_ASSIGNED state, `deliver_to_courier` with
`delivery_successful=false` persists COURIER_ASSIGNED → DELIVERY_FAILED,
which is not an edge of the section 4.1 graph. -/
theorem C1_counterexample :
    statusAt (demoDB caTransfer) 1 = some "courier_assigned" ∧
    statusAt (deliver_to_courier (demoDB caTransfer) 1
      { delivery_successful := false, notes := none } ⟨20, 1⟩).2 1 =
        some "delivery_failed" ∧
    specAllowedEdge "courier_assigned" "delivery_failed" = false := by
  refine ⟨rfl, ?_, rfl⟩
  decide

theorem pickup_inv_changes (db : DB) (t : TransferRow) (lid : Nat) :
    (update_inventory_on_pickup db t lid).2.inventory_changes =
      db.inventory_changes := by
  unfold update_inventory_on_pickup
  repeat' split
  all_goals rfl

theorem reception_inv_changes (db : DB) (t : TransferRow) (q : Int)
    (lid : Nat) :
    (update_inventory_on_reception db t q lid).2.inventory_changes =
      db.inventory_changes := by
  unfold update_inventory_on_reception
  repeat' split
  all_goals rfl

theorem deliver_changes (db : DB) (tid : Nat) (d : DeliveryConfirmation)
    (wk : UserT) :
    (deliver_to_courier db tid d wk).2.inventory_changes =
      db.inventory_changes := by
  unfold deliver_to_courier
  cases hf : get_transfer_by_id db tid with
  | none => simp only [hf]
  | some t0 =>
    simp only [hf]
    by_cases h1 : (t0.warehouse_keeper_id != some wk.id) = true
    · rw [if_pos h1]
    · rw [if_neg h1]
      by_cases h2 : (t0.status != "courier_assigned") = true
      · rw [if_pos h2]
      · rw [if_neg h2]
        by_cases h3 : d.delivery_successful = true
        · rw [if_pos h3]
          by_cases h4 :
              (update_inventory_on_pickup db t0 wk.location_id).1 = true
          · rw [if_pos h4]
            exact pickup_inv_changes db t0 wk.location_id
          · rw [if_neg h4]
            exact pickup_inv_changes db t0 wk.location_id
        · rw [if_neg h3]
          rfl

theorem reception_changes (db : DB) (tid : Nat) (c : ReceptionConfirmation)
    (r : UserT) :
    (confirm_reception db tid c r).2.inventory_changes =
      db.inventory_changes := by
  unfold confirm_reception
  cases hf : get_transfer_by_id db tid with
  | none => simp only [hf]
  | some t0 =>
    simp only [hf]
    by_cases h1 : (t0.requester_id != r.id) = true
    · rw [if_pos h1]
    · rw [if_neg h1]
      by_cases h2 : (t0.status != "delivered") = true
      · rw [if_pos h2]
      · rw [if_neg h2]
        by_cases h3 : (c.condition_ok && c.received_quantity > 0) = true
        · rw [if_pos h3]
          by_cases h4 : (update_inventory_on_reception db t0
              c.received_quantity r.location_id).1 = true
          · rw [if_pos h4]
            exact reception_inv_changes db t0 c.received_quantity r.location_id
          · rw [if_neg h4]
            exact reception_inv_changes db t0 c.received_quantity r.location_id
        · rw [if_neg h3]
          rfl

/-- Claim C2 (amended): the transfer workflow's own inventory mutations do
NOT append an InventoryChangeRecord — both the hand-off decrement
(`deliver_to_courier`) and the reception increment (`confirm_reception`)
leave the inventory_changes table untouched; only `reverse_movement` appends
an InventoryChangeRecord, in the same unit of work as its quantity change,
recording the original record's quantities (swapped into
quantity_before/quantity_after) and referencing it by id. -/
theorem C2_change_records :
    (∀ (db : DB) (tid : Nat) (d : DeliveryConfirmation) (wk : UserT),
      (deliver_to_courier db tid d wk).2.inventory_changes =
        db.inventory_changes) ∧
    (∀ (db : DB) (tid : Nat) (c : ReceptionConfirmation) (r : UserT),
      (confirm_reception db tid c r).2.inventory_changes =
        db.inventory_changes) ∧
    (∀ (db : DB) (rev : MovementReversal) (wk : UserT)
        (orig : InventoryChangeRow),
      db.inventory_changes.find? (fun ch =>
        ch.id == rev.original_movement_id) = some orig →
      (find_product_by_id db orig.product_id).isSome = true →
      ∃ rec,
        (reverse_inventory_movement db rev wk).2.inventory_changes =
          db.inventory_changes ++ [rec] ∧
        rec.change_type = "reversal" ∧
        rec.quantity_before = orig.quantity_after ∧
        rec.quantity_after = orig.quantity_before ∧
        rec.reference_id = some orig.id) := by
  refine ⟨deliver_changes, reception_changes, ?_⟩
  intro db rev wk orig hfc hp
  rw [Option.isSome_iff_exists] at hp
  obtain ⟨p, hp⟩ := hp
  refine ⟨{ id := db.next_change_id, product_id := orig.product_id,
            change_type := "reversal", size := orig.size,
            quantity_before := orig.quantity_after,
            quantity_after := orig.quantity_before,
            reference_id := some orig.id, user_id := wk.id,
            notes := "REVERSIÓN: " ++ rev.reason ++
              " | Movimiento original ID: " ++
              toString rev.original_movement_id ++ ". " ++
              (rev.notes.getD "") }, ?_, rfl, rfl, rfl, rfl⟩
  unfold reverse_inventory_movement
  simp only [hfc, hp]
  cases hs : db.product_sizes.find? (fun ps =>
      ps.product_id == p.id && some ps.size == orig.size) <;>
    simp only [hs]

/-- Claim C2 witness: the amended theorem applied at concrete inputs — a
concrete hand-off and reception leave the audit table unchanged, and a
concrete reversal of a recorded decrement (5 → 2) appends the reversal
record. -/
theorem C2_change_records_witness :
    ((deliver_to_courier (demoDB caTransfer) 1
      { delivery_successful := true, notes := none }
      ⟨20, 1⟩).2.inventory_changes =
        (demoDB caTransfer).inventory_changes) ∧
    ((confirm_reception (demoDB deliveredTransfer) 1
      { received_quantity := 3, condition_ok := true, notes := none }
      ⟨10, 2⟩).2.inventory_changes =
        (demoDB deliveredTransfer).inventory_changes) ∧
    (∃ rec,
      (reverse_inventory_movement
        { demoDB caTransfer with
          inventory_changes :=
            [{ id := 7, product_id := 1, change_type := "transfer_pickup",
               size := some "42", quantity_before := 5, quantity_after := 2,
               reference_id := none, user_id := 20, notes := "" }] }
        { original_movement_id := 7, reason := "Entrega fallida",
          notes := none }
        ⟨20, 1⟩).2.inventory_changes =
        { demoDB caTransfer with
          inventory_changes :=
            [{ id := 7, product_id := 1, change_type := "transfer_pickup",
               size := some "42", quantity_before := 5, quantity_after := 2,
               reference_id := none, user_id := 20, notes := "" }]
            }.inventory_changes ++ [rec] ∧
      rec.change_type = "reversal" ∧
      rec.quantity_before = 2 ∧
      rec.quantity_after = 5 ∧
      rec.reference_id = some 7) :=
  ⟨C2_change_records.1 (demoDB caTransfer) 1
      { delivery_successful := true, notes := none } ⟨20, 1⟩,
    C2_change_records.2.1 (demoDB deliveredTransfer) 1
      { received_quantity := 3, condition_ok := true, notes := none } ⟨10, 2⟩,
    C2_change_records.2.2
      { demoDB caTransfer with
        inventory_changes :=
          [{ id := 7, product_id := 1, change_type := "transfer_pickup",
             size := some "42", quantity_before := 5, quantity_after := 2,
             reference_id := none, user_id := 20, notes := "" }] }
      { original_movement_id := 7, reason := "Entrega fallida", notes := none }
      ⟨20, 1⟩
      { id := 7, product_id := 1, change_type := "transfer_pickup",
        size := some "42", quantity_before := 5, quantity_after := 2,
        reference_id := none, user_id := 20, notes := "" }
      (by decide) (by decide)⟩

/-- Claim C2 counterexample: a concrete successful hand-off decrements the
source variant from 5 to 2 but appends no InventoryChangeRecord in that unit
of work, so the claim as stated is false. -/
theorem C2_counterexample :
    (deliver_to_courier (demoDB caTransfer) 1
      { delivery_successful := true, notes := none } ⟨20, 1⟩).1 =
        .ok ("in_transit", true) ∧
    qtyAt (demoDB caTransfer) 1 = some 5 ∧
    qtyAt (deliver_to_courier (demoDB caTransfer) 1
      { delivery_successful := true, notes := none } ⟨20, 1⟩).2 1 = some 2 ∧
    (deliver_to_courier (demoDB caTransfer) 1
      { delivery_successful := true, notes := none }
      ⟨20, 1⟩).2.inventory_changes = [] := by
  refine ⟨?_, rfl, ?_, ?_⟩ <;> decide

theorem find?_updateQty (sizes : List ProductSizeRow) (sid : Nat)
    (f : Int → Int) :
    (updateQty sizes sid f).find? (fun ps => ps.id == sid) =
      (sizes.find? (fun ps => ps.id == sid)).map
        (fun ps => { ps with quantity := f ps.quantity }) := by
  unfold updateQty
  induction sizes with
  | nil => rfl
  | cons a l ih =>
    simp only [List.map_cons]
    by_cases h : (a.id == sid) = true
    · have h2 : (({ a with quantity := f a.quantity } :
          ProductSizeRow).id == sid) = true := h
      rw [if_pos h,
        List.find?_cons_of_pos (p := fun (x : ProductSizeRow) => x.id == sid)
          _ h2,
        List.find?_cons_of_pos (p := fun (x : ProductSizeRow) => x.id == sid)
          _ h]
      rfl
    · rw [if_neg h,
        List.find?_cons_of_neg (p := fun (x : ProductSizeRow) => x.id == sid)
          _ h,
        List.find?_cons_of_neg (p := fun (x : ProductSizeRow) => x.id == sid)
          _ h, ih]

theorem find?_of_mem_nodup_size (l : List ProductSizeRow)
    (hnd : (l.map (fun ps => ps.id)).Nodup) {ps : ProductSizeRow}
    (hmem : ps ∈ l) : l.find? (fun x => x.id == ps.id) = some ps := by
  have hsome : (l.find? (fun x => x.id == ps.id)).isSome :=
    List.find?_isSome.mpr ⟨ps, hmem, by simp⟩
  obtain ⟨x, hx⟩ := Option.isSome_iff_exists.mp hsome
  have hxm : x ∈ l := List.mem_of_find?_eq_some hx
  have hxid : x.id = ps.id := by simpa using List.find?_some hx
  rw [hx, List.inj_on_of_nodup_map hnd hxm hmem hxid]

/-- Claim C3 (amended): at hand-off (`deliver_to_courier`, transfer in
COURIER_ASSIGNED, caller the assigned keeper, `delivery_successful=true`),
when current stock is below the transfer quantity the operation fails with
the generic HTTP-500 inventory error (not a dedicated InsufficientStock
error) and leaves the database — status and quantity — unchanged; and the
transfer only ever advances to IN_TRANSIT together with a successful
decrement, which requires quantity ≥ transfer quantity and therefore never
drives the stock negative. -/
theorem C3_insufficient_stock (db : DB) (tid : Nat)
    (d : DeliveryConfirmation) (wk : UserT) (t0 : TransferRow)
    (hndS : (db.product_sizes.map (fun ps => ps.id)).Nodup)
    (hf : get_transfer_by_id db tid = some t0)
    (hwk : t0.warehouse_keeper_id = some wk.id)
    (hst : t0.status = "courier_assigned")
    (hd : d.delivery_successful = true) :
    (∀ loc ps, find_location db wk.location_id = some loc →
      find_active_size db t0.sneaker_reference_code t0.size loc.name =
        some ps →
      ps.quantity < t0.quantity →
      (deliver_to_courier db tid d wk).1 =
        .error (.internalError "Error actualizando inventario") ∧
      (deliver_to_courier db tid d wk).2 = db) ∧
    (∀ x, (deliver_to_courier db tid d wk).1 = .ok x →
      ∃ loc ps, find_location db wk.location_id = some loc ∧
        find_active_size db t0.sneaker_reference_code t0.size loc.name =
          some ps ∧
        t0.quantity ≤ ps.quantity ∧
        qtyAt (deliver_to_courier db tid d wk).2 ps.id =
          some (ps.quantity - t0.quantity) ∧
        0 ≤ ps.quantity - t0.quantity ∧
        statusAt (deliver_to_courier db tid d wk).2 tid =
          some "in_transit") := by
  have hwkb : (t0.warehouse_keeper_id != some wk.id) = false := by
    rw [hwk]; simp
  have hstb : (t0.status != "courier_assigned") = false := by
    rw [hst]; simp
  constructor
  · intro loc ps hl hs hq
    have hinv : update_inventory_on_pickup db t0 wk.location_id =
        (false, db) := by
      unfold update_inventory_on_pickup
      simp only [hl, hs, if_pos hq]
    unfold deliver_to_courier
    simp only [hf]
    rw [if_neg (by simp [hwkb]), if_neg (by simp [hstb]), if_pos hd, hinv,
      if_neg (by simp)]
    exact ⟨rfl, rfl⟩
  · intro x hok
    cases hl : find_location db wk.location_id with
    | none =>
      have hinv : update_inventory_on_pickup db t0 wk.location_id =
          (false, db) := by
        unfold update_inventory_on_pickup; simp only [hl]
      unfold deliver_to_courier at hok
      simp only [hf] at hok
      rw [if_neg (by simp [hwkb]), if_neg (by simp [hstb]), if_pos hd, hinv,
        if_neg (by simp)] at hok
      exact Except.noConfusion hok
    | some loc =>
      cases hs : find_active_size db t0.sneaker_reference_code t0.size
          loc.name with
      | none =>
        have hinv : update_inventory_on_pickup db t0 wk.location_id =
            (false, db) := by
          unfold update_inventory_on_pickup; simp only [hl, hs]
        unfold deliver_to_courier at hok
        simp only [hf] at hok
        rw [if_neg (by simp [hwkb]), if_neg (by simp [hstb]), if_pos hd, hinv,
          if_neg (by simp)] at hok
        exact Except.noConfusion hok
      | some ps =>
        by_cases hq : ps.quantity < t0.quantity
        · have hinv : update_inventory_on_pickup db t0 wk.location_id =
              (false, db) := by
            unfold update_inventory_on_pickup
            simp only [hl, hs, if_pos hq]
          unfold deliver_to_courier at hok
          simp only [hf] at hok
          rw [if_neg (by simp [hwkb]), if_neg (by simp [hstb]), if_pos hd,
            hinv, if_neg (by simp)] at hok
          exact Except.noConfusion hok
        · have hinv : update_inventory_on_pickup db t0 wk.location_id =
              (true, { db with product_sizes := updateQty db.product_sizes ps.id (fun q => q - t0.quantity) }) := by
            unfold update_inventory_on_pickup
            simp only [hl, hs, if_neg hq]
          have hdeliver : deliver_to_courier db tid d wk =
              (.ok ("in_transit", true),
                (update_transfer_status
                  { db with product_sizes := updateQty db.product_sizes ps.id (fun q => q - t0.quantity) }
                  tid "in_transit" { pickup_notes := some d.notes }).2) := by
            unfold deliver_to_courier
            simp only [hf]
            rw [if_neg (by simp [hwkb]), if_neg (by simp [hstb]), if_pos hd,
              hinv, if_pos (by simp)]
          have hmem : ps ∈ db.product_sizes := List.mem_of_find?_eq_some hs
          have hfind : db.product_sizes.find? (fun x => x.id == ps.id) =
              some ps := find?_of_mem_nodup_size _ hndS hmem
          refine ⟨loc, ps, rfl, hs, not_lt.mp hq, ?_,
            sub_nonneg.mpr (not_lt.mp hq), ?_⟩
          · rw [hdeliver]
            show ((updateQty db.product_sizes ps.id
                (fun q => q - t0.quantity)).find?
                  (fun x => x.id == ps.id)).map (fun x => x.quantity) = _
            rw [find?_updateQty, hfind]
            rfl
          · rw [hdeliver]
            unfold statusAt
            rw [get_after_update]
            have hf2 : get_transfer_by_id
                { db with product_sizes := updateQty db.product_sizes ps.id (fun q => q - t0.quantity) }
                tid = some t0 := hf
            rw [hf2]
            rfl

/-- Claim C3 witness: the amended theorem applied at a concrete hand-off
where stock (2) is below the transfer quantity (3) — the call fails with the
generic 500 error and the database is unchanged. -/
theorem C3_insufficient_stock_witness :
    (deliver_to_courier lowStockDB 1
      { delivery_successful := true, notes := none } ⟨20, 1⟩).1 =
      .error (.internalError "Error actualizando inventario") ∧
    (deliver_to_courier lowStockDB 1
      { delivery_successful := true, notes := none } ⟨20, 1⟩).2 =
      lowStockDB :=
  (C3_insufficient_stock lowStockDB 1
      { delivery_successful := true, notes := none } ⟨20, 1⟩ caTransfer
      (by decide) (by decide) (by decide) (by decide) rfl).1
    ⟨1, "Bodega Central"⟩ lowStock (by decide) (by decide) (by decide)

/-- Claim C3 counterexample: at that same input the caller receives the
generic internal error, not an InsufficientStock-style 400 (the error class
the code uses for insufficient stock elsewhere), so the claim as stated is
false; the status does stay COURIER_ASSIGNED. -/
theorem C3_counterexample :
    (deliver_to_courier lowStockDB 1
      { delivery_successful := true, notes := none } ⟨20, 1⟩).1 =
      .error (.internalError "Error actualizando inventario") ∧
    (∀ s, ApiError.internalError "Error actualizando inventario" ≠
      ApiError.badRequest s) ∧
    statusAt (deliver_to_courier lowStockDB 1
      { delivery_successful := true, notes := none } ⟨20, 1⟩).2 1 =
      some "courier_assigned" ∧
    qtyAt (deliver_to_courier lowStockDB 1
      { delivery_successful := true, notes := none } ⟨20, 1⟩).2 1 = some 2 :=
  ⟨by decide, fun s h => ApiError.noConfusion h, by decide, by decide⟩

/-- Claim C4: for an inventory change record `orig` (quantity_before b,
quantity_after a) whose variant's live quantity still equals a,
`reverse_movement` adds b − a to that same variant — so reversing a
decrement restores the quantity to b — and writes a new
InventoryChangeRecord of type `reversal` referencing `orig` by id, in the
same unit of work; these effects are committed even though the call itself
then ends in an unhandled AttributeError while building the response
(`Product` has no `location_id` attribute). -/
theorem C4_reverse_round_trip (db : DB) (rev : MovementReversal) (wk : UserT)
    (orig : InventoryChangeRow) (p : ProductRow) (ps : ProductSizeRow)
    (hndS : (db.product_sizes.map (fun x => x.id)).Nodup)
    (hfc : db.inventory_changes.find? (fun ch =>
      ch.id == rev.original_movement_id) = some orig)
    (hp : find_product_by_id db orig.product_id = some p)
    (hs : db.product_sizes.find? (fun x =>
      x.product_id == p.id && some x.size == orig.size) = some ps)
    (hq : ps.quantity = orig.quantity_after) :
    qtyAt (reverse_inventory_movement db rev wk).2 ps.id =
      some orig.quantity_before ∧
    (reverse_inventory_movement db rev wk).2.inventory_changes =
      db.inventory_changes ++
        [{ id := db.next_change_id, product_id := orig.product_id,
           change_type := "reversal", size := orig.size,
           quantity_before := orig.quantity_after,
           quantity_after := orig.quantity_before,
           reference_id := some orig.id, user_id := wk.id,
           notes := "REVERSIÓN: " ++ rev.reason ++
             " | Movimiento original ID: " ++
             toString rev.original_movement_id ++ ". " ++
             (rev.notes.getD "") }] ∧
    (reverse_inventory_movement db rev wk).1 =
      .error (.unhandledException
        "AttributeError: Product has no attribute location_id") := by
  have hmem : ps ∈ db.product_sizes := List.mem_of_find?_eq_some hs
  have hfind : db.product_sizes.find? (fun x => x.id == ps.id) = some ps :=
    find?_of_mem_nodup_size _ hndS hmem
  have hrev : reverse_inventory_movement db rev wk =
      (.error (.unhandledException
        "AttributeError: Product has no attribute location_id"),
        { db with
            product_sizes := updateQty db.product_sizes ps.id
              (fun q => q + (orig.quantity_before - orig.quantity_after)),
            inventory_changes := db.inventory_changes ++
              [{ id := db.next_change_id, product_id := orig.product_id,
                 change_type := "reversal", size := orig.size,
                 quantity_before := orig.quantity_after,
                 quantity_after := orig.quantity_before,
                 reference_id := some orig.id, user_id := wk.id,
                 notes := "REVERSIÓN: " ++ rev.reason ++
                   " | Movimiento original ID: " ++
                   toString rev.original_movement_id ++ ". " ++
                   (rev.notes.getD "") }],
            next_change_id := db.next_change_id + 1 }) := by
    unfold reverse_inventory_movement
    simp only [hfc, hp, hs]
  refine ⟨?_, ?_, ?_⟩
  · rw [hrev]
    unfold qtyAt
    show ((updateQty db.product_sizes ps.id
        (fun q => q + (orig.quantity_before - orig.quantity_after))).find?
          (fun x => x.id == ps.id)).map (fun x => x.quantity) =
      some orig.quantity_before
    rw [find?_updateQty, hfind]
    simp only [Option.map_some']
    rw [hq]
    congr 1
    omega
  · rw [hrev]
  · rw [hrev]

/-- Claim C4 witness: the theorem applied at a concrete state — reversing
the recorded 5 → 2 pickup decrement restores the variant to 5 and appends a
reversal record referencing record 7, while the call itself surfaces the
post-commit AttributeError. -/
theorem C4_reverse_round_trip_witness :
    qtyAt (reverse_inventory_movement reversalDB
      { original_movement_id := 7, reason := "Entrega fallida",
        notes := none } ⟨20, 1⟩).2 lowStock.id =
      some pickupChange.quantity_before ∧
    (reverse_inventory_movement reversalDB
      { original_movement_id := 7, reason := "Entrega fallida",
        notes := none } ⟨20, 1⟩).2.inventory_changes =
      reversalDB.inventory_changes ++
        [{ id := reversalDB.next_change_id,
           product_id := pickupChange.product_id,
           change_type := "reversal", size := pickupChange.size,
           quantity_before := pickupChange.quantity_after,
           quantity_after := pickupChange.quantity_before,
           reference_id := some pickupChange.id, user_id := 20,
           notes := "REVERSIÓN: Entrega fallida | Movimiento original ID: 7. " }] ∧
    (reverse_inventory_movement reversalDB
      { original_movement_id := 7, reason := "Entrega fallida",
        notes := none } ⟨20, 1⟩).1 =
      .error (.unhandledException
        "AttributeError: Product has no attribute location_id") :=
  C4_reverse_round_trip reversalDB
    { original_movement_id := 7, reason := "Entrega fallida", notes := none }
    ⟨20, 1⟩ pickupChange demoProduct lowStock (by decide) (by decide)
    (by decide) (by decide) rfl


/-- Claim C6: a courier claim on a transfer that is not ACCEPTED or already
has a courier is rejected with the AlreadyClaimed HTTP-409 conflict (not a
generic validation error) and changes nothing; otherwise the caller is
recorded as the courier and the status becomes COURIER_ASSIGNED — and a
second claimer then receives the conflict with no further change, so at most
one courier is ever assigned and exactly one of two competing claimers
succeeds. -/
theorem C6_claim_exclusive (db : DB) (tid : Nat) (a a2 : CourierAcceptance)
    (c c2 : UserT) (t0 : TransferRow)
    (hf : get_transfer_by_id db tid = some t0) :
    (t0.status ≠ "accepted" ∨ t0.courier_id ≠ none →
      (accept_courier_request db tid a c).1 =
        .error (.conflict
          "Solicitud no disponible - ya fue tomada por otro corredor") ∧
      (accept_courier_request db tid a c).2 = db) ∧
    (t0.status = "accepted" → t0.courier_id = none →
      (∃ u, (accept_courier_request db tid a c).1 = .ok u) ∧
      (get_transfer_by_id (accept_courier_request db tid a c).2 tid).map
        (fun t => (t.status, t.courier_id)) =
          some ("courier_assigned", some c.id) ∧
      (accept_courier_request (accept_courier_request db tid a c).2 tid a2
        c2).1 =
        .error (.conflict
          "Solicitud no disponible - ya fue tomada por otro corredor") ∧
      (accept_courier_request (accept_courier_request db tid a c).2 tid a2
        c2).2 = (accept_courier_request db tid a c).2) := by
  constructor
  · intro h
    have hguard : (t0.status != "accepted" || t0.courier_id.isSome) = true := by
      rcases h with h | h
      · simp [bne_iff_ne, h]
      · simp [Option.isSome_iff_ne_none, h]
    unfold accept_courier_request
    simp only [hf]
    rw [if_pos hguard]
    exact ⟨rfl, rfl⟩
  · intro hst hcour
    have hguard : (t0.status != "accepted" || t0.courier_id.isSome) = false := by
      simp [hst, hcour]
    have hclaim : accept_courier_request db tid a c =
        (.ok (applyStatusUpdate db.now "courier_assigned"
          { courier_id := some c.id,
            estimated_pickup_time := some a.estimated_pickup_time,
            courier_notes := some a.notes } t0),
         (update_transfer_status db tid "courier_assigned"
          { courier_id := some c.id,
            estimated_pickup_time := some a.estimated_pickup_time,
            courier_notes := some a.notes }).2) := by
      unfold accept_courier_request
      simp only [hf]
      rw [if_neg (by simp [hguard])]
      simp only [update_fst, hf, Option.isSome_some, Bool.not_true,
        Bool.false_eq_true, if_false, get_after_update, Option.map_some']
    have hf2 : get_transfer_by_id (accept_courier_request db tid a c).2 tid =
        some (applyStatusUpdate db.now "courier_assigned"
          { courier_id := some c.id,
            estimated_pickup_time := some a.estimated_pickup_time,
            courier_notes := some a.notes } t0) := by
      rw [hclaim]
      show get_transfer_by_id (update_transfer_status db tid
        "courier_assigned"
        { courier_id := some c.id,
          estimated_pickup_time := some a.estimated_pickup_time,
          courier_notes := some a.notes }).2 tid = _
      rw [get_after_update, hf]
      rfl
    have hguard2 : ((applyStatusUpdate db.now "courier_assigned"
        { courier_id := some c.id,
          estimated_pickup_time := some a.estimated_pickup_time,
          courier_notes := some a.notes } t0).status != "accepted" ||
        (applyStatusUpdate db.now "courier_assigned"
        { courier_id := some c.id,
          estimated_pickup_time := some a.estimated_pickup_time,
          courier_notes := some a.notes } t0).courier_id.isSome) = true := rfl
    have hf3 : get_transfer_by_id (update_transfer_status db tid
        "courier_assigned"
        { courier_id := some c.id,
          estimated_pickup_time := some a.estimated_pickup_time,
          courier_notes := some a.notes }).2 tid =
        some (applyStatusUpdate db.now "courier_assigned"
          { courier_id := some c.id,
            estimated_pickup_time := some a.estimated_pickup_time,
            courier_notes := some a.notes } t0) := by
      rw [get_after_update, hf]
      rfl
    have hres : accept_courier_request (update_transfer_status db tid
        "courier_assigned"
        { courier_id := some c.id,
          estimated_pickup_time := some a.estimated_pickup_time,
          courier_notes := some a.notes }).2 tid a2 c2 =
        (.error (.conflict
          "Solicitud no disponible - ya fue tomada por otro corredor"),
         (update_transfer_status db tid "courier_assigned"
          { courier_id := some c.id,
            estimated_pickup_time := some a.estimated_pickup_time,
            courier_notes := some a.notes }).2) := by
      unfold accept_courier_request
      simp only [hf3, hguard2, if_true]
    refine ⟨⟨_, by rw [hclaim]⟩, ?_, ?_, ?_⟩
    · rw [hf2]
      rfl
    · simp only [hclaim]
      rw [hres]
    · simp only [hclaim]
      rw [hres]

/-- Claim C6 witness: the theorem applied at a concrete ACCEPTED transfer —
courier 30 wins, courier 31 then receives the 409 conflict. -/
theorem C6_claim_exclusive_witness :
    (∃ u, (accept_courier_request (demoDB acceptedTransfer) 1
      { estimated_pickup_time := 20, notes := none } ⟨30, 3⟩).1 = .ok u) ∧
    (get_transfer_by_id (accept_courier_request (demoDB acceptedTransfer) 1
      { estimated_pickup_time := 20, notes := none } ⟨30, 3⟩).2 1).map
        (fun t => (t.status, t.courier_id)) =
      some ("courier_assigned", some 30) ∧
    (accept_courier_request (accept_courier_request (demoDB acceptedTransfer)
      1 { estimated_pickup_time := 20, notes := none } ⟨30, 3⟩).2 1
      { estimated_pickup_time := 15, notes := none } ⟨31, 3⟩).1 =
      .error (.conflict
        "Solicitud no disponible - ya fue tomada por otro corredor") ∧
    (accept_courier_request (accept_courier_request (demoDB acceptedTransfer)
      1 { estimated_pickup_time := 20, notes := none } ⟨30, 3⟩).2 1
      { estimated_pickup_time := 15, notes := none } ⟨31, 3⟩).2 =
      (accept_courier_request (demoDB acceptedTransfer) 1
        { estimated_pickup_time := 20, notes := none } ⟨30, 3⟩).2 :=
  (C6_claim_exclusive (demoDB acceptedTransfer) 1
    { estimated_pickup_time := 20, notes := none }
    { estimated_pickup_time := 15, notes := none }
    ⟨30, 3⟩ ⟨31, 3⟩ acceptedTransfer (by decide)).2 rfl rfl

/-- Claim C7: the accept flow gates on PENDING and re-checks stock as the
claim says (insufficient stock yields the 400 "Stock insuficiente" error
with the transfer unchanged, still PENDING), but approval itself never
succeeds: past the stock check the update dict carries
`estimated_preparation_time`, which is not a `TransferRequest` column, so
`Query.update` raises, the repository rolls back and re-raises, and at the
claimed success input the call ends in an unhandled 500 with nothing
persisted — the status never becomes ACCEPTED and no warehouse_keeper or
accepted_at is recorded. -/
theorem C7_accept_bug :
    (accept_transfer_request (demoDB baseTransfer)
      { transfer_request_id := 1, accepted := true,
        estimated_preparation_time := 30, notes := none } ⟨20, 1⟩).1 =
      .error (.unhandledException
        "SQLAlchemyError: unmapped column estimated_preparation_time") ∧
    (accept_transfer_request (demoDB baseTransfer)
      { transfer_request_id := 1, accepted := true,
        estimated_preparation_time := 30, notes := none } ⟨20, 1⟩).2 =
      demoDB baseTransfer ∧
    statusAt (accept_transfer_request (demoDB baseTransfer)
      { transfer_request_id := 1, accepted := true,
        estimated_preparation_time := 30, notes := none } ⟨20, 1⟩).2 1 =
      some "pending" ∧
    (accept_transfer_request { demoDB baseTransfer with product_sizes := [lowStock] }
      { transfer_request_id := 1, accepted := true,
        estimated_preparation_time := 30, notes := none } ⟨20, 1⟩).1 =
      .error (.badRequest "Stock insuficiente. Disponible: 2") ∧
    (accept_transfer_request { demoDB baseTransfer with product_sizes := [lowStock] }
      { transfer_request_id := 1, accepted := true,
        estimated_preparation_time := 30, notes := none } ⟨20, 1⟩).2 =
      { demoDB baseTransfer with product_sizes := [lowStock] } := by
  refine ⟨?_, ?_, ?_, ?_, ?_⟩ <;> decide


/-- Claim C8: the cancel guard is as the claim says — a non-requester, or a
transfer already in progress (e.g. COURIER_ASSIGNED), gets the 400
"No se puede cancelar" rejection with nothing changed — but cancellation
itself never succeeds: past the guard the update dict carries
`cancelled_at`, which is not a `TransferRequest` column, so `Query.update`
raises, the repository rolls back and re-raises, and the requester's cancel
of a PENDING transfer ends in an unhandled 500 with the status still
PENDING; CANCELLED is never persisted and no cancelled_at is recorded. -/
theorem C8_cancel_bug :
    (cancel_transfer_request (demoDB baseTransfer) 1 ⟨10, 2⟩ "ya no").1 =
      .error (.unhandledException
        "SQLAlchemyError: unmapped column cancelled_at") ∧
    (cancel_transfer_request (demoDB baseTransfer) 1 ⟨10, 2⟩ "ya no").2 =
      demoDB baseTransfer ∧
    statusAt (cancel_transfer_request (demoDB baseTransfer) 1 ⟨10, 2⟩ "ya no").2 1 =
      some "pending" ∧
    (cancel_transfer_request (demoDB baseTransfer) 1 ⟨99, 2⟩ "ya no").1 =
      .error (.badRequest
        "No se puede cancelar: transferencia no encontrada, no es tuya, o ya está en proceso") ∧
    (cancel_transfer_request (demoDB baseTransfer) 1 ⟨99, 2⟩ "ya no").2 =
      demoDB baseTransfer ∧
    (cancel_transfer_request (demoDB caTransfer) 1 ⟨10, 2⟩ "ya no").1 =
      .error (.badRequest
        "No se puede cancelar: transferencia no encontrada, no es tuya, o ya está en proceso") ∧
    (cancel_transfer_request (demoDB caTransfer) 1 ⟨10, 2⟩ "ya no").2 =
      demoDB caTransfer := by
  refine ⟨?_, ?_, ?_, ?_, ?_, ?_, ?_⟩ <;> decide


/-- Claim C9: every successfully created transfer has its destination set to
the requester's own location and a source different from it, enters status
PENDING, and required available source stock at least the requested
quantity; creation with insufficient stock is rejected and adds no
transfer. -/
theorem C9_create (db : DB) (rd : TransferRequestCreate) (requester : UserT) :
    (∀ tr, (create_transfer_request db rd requester).1 = .ok tr →
      tr.destination_location_id = requester.location_id ∧
      tr.source_location_id ≠ tr.destination_location_id ∧
      tr.status = "pending" ∧
      tr.requester_id = requester.id ∧
      rd.quantity ≤ (check_product_availability db rd.sneaker_reference_code
        rd.size rd.source_location_id).available_stock ∧
      (create_transfer_request db rd requester).2.transfers =
        db.transfers ++ [tr]) ∧
    ((check_product_availability db rd.sneaker_reference_code rd.size
      rd.source_location_id).available_stock < rd.quantity →
      (∃ e, (create_transfer_request db rd requester).1 = .error e) ∧
      (create_transfer_request db rd requester).2 = db) := by
  constructor
  · intro tr hok
    unfold create_transfer_request at hok ⊢
    by_cases h1 : (rd.source_location_id == requester.location_id) = true
    · rw [if_pos h1] at hok
      exact Except.noConfusion hok
    · rw [if_neg h1] at hok ⊢
      by_cases h2 : (!(check_product_availability db
          rd.sneaker_reference_code rd.size
          rd.source_location_id).available) = true
      · rw [if_pos h2] at hok
        exact Except.noConfusion hok
      · rw [if_neg h2] at hok ⊢
        by_cases h3 : (check_product_availability db rd.sneaker_reference_code
            rd.size rd.source_location_id).available_stock < rd.quantity
        · rw [if_pos h3] at hok
          exact Except.noConfusion hok
        · rw [if_neg h3] at hok ⊢
          have htr := (Except.ok.inj hok).symm
          subst htr
          refine ⟨rfl, by simpa using h1, rfl, rfl, not_lt.mp h3, rfl⟩
  · intro hlt
    unfold create_transfer_request
    by_cases h1 : (rd.source_location_id == requester.location_id) = true
    · rw [if_pos h1]
      exact ⟨⟨_, rfl⟩, rfl⟩
    · rw [if_neg h1]
      by_cases h2 : (!(check_product_availability db
          rd.sneaker_reference_code rd.size
          rd.source_location_id).available) = true
      · rw [if_pos h2]
        exact ⟨⟨_, rfl⟩, rfl⟩
      · rw [if_neg h2, if_pos hlt]
        exact ⟨⟨_, rfl⟩, rfl⟩

/-- Claim C9 witness: the theorem applied at concrete inputs — a request for
10 units with only 5 in stock is rejected and the database is unchanged. -/
theorem C9_create_witness :
    (∃ e, (create_transfer_request (demoDB baseTransfer)
      { source_location_id := 1, sneaker_reference_code := "NK-AF1-001",
        brand := "Nike", model := "AF1", size := "42", quantity := 10,
        purpose := "cliente", pickup_type := "corredor",
        destination_type := "bodega", notes := none } ⟨11, 2⟩).1 =
      .error e) ∧
    (create_transfer_request (demoDB baseTransfer)
      { source_location_id := 1, sneaker_reference_code := "NK-AF1-001",
        brand := "Nike", model := "AF1", size := "42", quantity := 10,
        purpose := "cliente", pickup_type := "corredor",
        destination_type := "bodega", notes := none } ⟨11, 2⟩).2 =
      demoDB baseTransfer :=
  (C9_create (demoDB baseTransfer)
    { source_location_id := 1, sneaker_reference_code := "NK-AF1-001",
      brand := "Nike", model := "AF1", size := "42", quantity := 10,
      purpose := "cliente", pickup_type := "corredor",
      destination_type := "bodega", notes := none } ⟨11, 2⟩).2 (by decide)

/-- Claim C10: the ReceptionConfirmation schema requires
received_quantity > 0, so a call with received_quantity ≤ 0 is rejected at
input validation before the service runs, leaving the database unchanged;
every confirmation that reaches the state machine has received_quantity > 0;
and for a delivered transfer owned by the caller the RECEPTION_ISSUES
outcome is reached exactly when condition_ok=false. -/
theorem C10_validation (db : DB) (tid : Nat) (rq : Int) (cond : Bool)
    (notes : Option String) (requester : UserT) :
    (rq ≤ 0 →
      parse_reception_confirmation rq cond notes = none ∧
      (confirm_reception_endpoint db tid rq cond notes requester).2 = db ∧
      ∃ e, (confirm_reception_endpoint db tid rq cond notes requester).1 =
        .error e) ∧
    (∀ c, parse_reception_confirmation rq cond notes = some c →
      c.received_quantity > 0 ∧ c.received_quantity = rq ∧
      c.condition_ok = cond) ∧
    (∀ c t0, parse_reception_confirmation rq cond notes = some c →
      get_transfer_by_id db tid = some t0 →
      t0.requester_id = requester.id →
      t0.status = "delivered" →
      (statusAt (confirm_reception_endpoint db tid rq cond notes
          requester).2 tid = some "reception_issues" ↔ cond = false)) := by
  have hparse0 : ∀ c, parse_reception_confirmation rq cond notes = some c →
      c = { received_quantity := rq, condition_ok := cond, notes := notes } ∧
      rq > 0 := by
    intro c hc
    unfold parse_reception_confirmation at hc
    split at hc
    · rename_i hv
      refine ⟨(Option.some.inj hc).symm, ?_⟩
      have hand := (Bool.and_eq_true _ _).mp hv
      exact of_decide_eq_true hand.1
    · exact Option.noConfusion hc
  refine ⟨?_, ?_, ?_⟩
  · intro hle
    have hpn : parse_reception_confirmation rq cond notes = none := by
      unfold parse_reception_confirmation
      split
      · rename_i hv
        exfalso
        have hand := (Bool.and_eq_true _ _).mp hv
        exact absurd (of_decide_eq_true hand.1) (not_lt.mpr hle)
      · rfl
    refine ⟨hpn, ?_, ?_⟩
    · unfold confirm_reception_endpoint
      simp only [hpn]
    · unfold confirm_reception_endpoint
      simp only [hpn]
      exact ⟨_, rfl⟩
  · intro c hc
    obtain ⟨hcv, hpos⟩ := hparse0 c hc
    subst hcv
    exact ⟨hpos, rfl, rfl⟩
  · intro c t0 hc hf hreq hst
    obtain ⟨hcv, hpos⟩ := hparse0 c hc
    subst hcv
    have hend : confirm_reception_endpoint db tid rq cond notes requester =
        confirm_reception db tid
          { received_quantity := rq, condition_ok := cond, notes := notes }
          requester := by
      unfold confirm_reception_endpoint
      simp only [hc]
    have hr1 : (t0.requester_id != requester.id) = false := by
      rw [hreq]; simp
    have hs1 : (t0.status != "delivered") = false := by
      rw [hst]; simp
    cases cond with
    | false =>
      have hguard : ((false : Bool) && decide (rq > 0)) = false := rfl
      have hres : confirm_reception db tid
          { received_quantity := rq, condition_ok := false, notes := notes }
          requester =
          (.ok false, (update_transfer_status db tid "reception_issues"
            { received_quantity := some rq,
              reception_notes := some (some ("Problemas en recepción: " ++
                pyFormat notes)) }).2) := by
        unfold confirm_reception
        simp only [hf]
        rw [if_neg (by simp [hr1]), if_neg (by simp [hs1]),
          if_neg (by simp [hguard])]
      rw [hend, hres]
      constructor
      · intro _
        rfl
      · intro _
        unfold statusAt
        show (get_transfer_by_id (update_transfer_status db tid
          "reception_issues"
          { received_quantity := some rq,
            reception_notes := some (some ("Problemas en recepción: " ++
              pyFormat notes)) }).2 tid).map (fun t => t.status) = _
        rw [get_after_update, hf]
        rfl
    | true =>
      have hguard : ((true : Bool) && decide (rq > 0)) = true := by
        simp [hpos]
      rw [hend]
      refine iff_of_false ?_ (by simp)
      by_cases hinv : (update_inventory_on_reception db t0 rq
          requester.location_id).1 = true
      · have hres : confirm_reception db tid
            { received_quantity := rq, condition_ok := true, notes := notes }
            requester =
            (.ok true, (update_transfer_status
              (update_inventory_on_reception db t0 rq
                requester.location_id).2 tid "completed"
              { received_quantity := some rq,
                reception_notes := some notes }).2) := by
          unfold confirm_reception
          simp only [hf]
          rw [if_neg (by simp [hr1]), if_neg (by simp [hs1]),
            if_pos hguard, if_pos hinv]
        rw [hres]
        unfold statusAt
        have hf3 : get_transfer_by_id (update_inventory_on_reception db t0 rq
            requester.location_id).2 tid = some t0 := by
          unfold get_transfer_by_id
          rw [reception_inv_transfers]
          exact hf
        rw [get_after_update, hf3]
        simp only [Option.map_some']
        intro hcontra
        have := Option.some.inj hcontra
        rw [applyStatusUpdate_status] at this
        exact absurd this (by decide)
      · have hres : confirm_reception db tid
            { received_quantity := rq, condition_ok := true, notes := notes }
            requester =
            (.error (.internalError "Error actualizando inventario"),
              (update_inventory_on_reception db t0 rq
                requester.location_id).2) := by
          unfold confirm_reception
          simp only [hf]
          rw [if_neg (by simp [hr1]), if_neg (by simp [hs1]),
            if_pos hguard, if_neg hinv]
        rw [hres]
        have hdb : (update_inventory_on_reception db t0 rq
            requester.location_id).2 = db :=
          reception_inv_false db t0 rq requester.location_id
            (by simpa using hinv)
        show statusAt (update_inventory_on_reception db t0 rq
          requester.location_id).2 tid ≠ some "reception_issues"
        rw [hdb]
        unfold statusAt
        rw [hf]
        simp only [Option.map_some']
        intro hcontra
        have := Option.some.inj hcontra
        rw [hst] at this
        exact absurd this (by decide)

/-- Claim C10 witness: the theorem applied at concrete inputs — a reception
body with received_quantity = 0 is rejected by validation with the state
untouched. -/
theorem C10_validation_witness :
    parse_reception_confirmation 0 true none = none ∧
    (confirm_reception_endpoint (demoDB deliveredTransfer) 1 0 true none
      ⟨10, 2⟩).2 = demoDB deliveredTransfer ∧
    ∃ e, (confirm_reception_endpoint (demoDB deliveredTransfer) 1 0 true none
      ⟨10, 2⟩).1 = .error e :=
  (C10_validation (demoDB deliveredTransfer) 1 0 true none ⟨10, 2⟩).1
    (by decide)

/-- Claim C5 (amended): for a DELIVERED transfer confirmed by its requester,
condition_ok=true with received_quantity>0 increments the variant at the
requester's location by received_quantity — creating the size row, and, when
no product with the reference code exists at that location, a product row
whose descriptive fields (color, prices, images) are copied from the FIRST
product anywhere matching the reference code (not necessarily the
source-location product) — and marks the transfer COMPLETED; with
condition_ok=false the call still succeeds, sets RECEPTION_ISSUES, and
performs no inventory change. -/
theorem C5_reception (db : DB) (tid : Nat) (c : ReceptionConfirmation)
    (requester : UserT) (t0 : TransferRow) (loc : LocationRow)
    (hndS : (db.product_sizes.map (fun x => x.id)).Nodup)
    (hf : get_transfer_by_id db tid = some t0)
    (hreq : t0.requester_id = requester.id)
    (hst : t0.status = "delivered")
    (hloc : find_location db requester.location_id = some loc) :
    (c.condition_ok = false →
      (confirm_reception db tid c requester).1 = .ok false ∧
      (confirm_reception db tid c requester).2.products = db.products ∧
      (confirm_reception db tid c requester).2.product_sizes =
        db.product_sizes ∧
      statusAt (confirm_reception db tid c requester).2 tid =
        some "reception_issues") ∧
    (c.condition_ok = true → c.received_quantity > 0 →
      ∀ p ps, db.products.find? (fun x =>
          x.reference_code == t0.sneaker_reference_code &&
            x.location_name == loc.name) = some p →
        db.product_sizes.find? (fun x =>
          x.product_id == p.id && x.size == t0.size) = some ps →
        (confirm_reception db tid c requester).1 = .ok true ∧
        statusAt (confirm_reception db tid c requester).2 tid =
          some "completed" ∧
        qtyAt (confirm_reception db tid c requester).2 ps.id =
          some (ps.quantity + c.received_quantity)) ∧
    (c.condition_ok = true → c.received_quantity > 0 →
      ∀ p, db.products.find? (fun x =>
          x.reference_code == t0.sneaker_reference_code &&
            x.location_name == loc.name) = some p →
        db.product_sizes.find? (fun x =>
          x.product_id == p.id && x.size == t0.size) = none →
        (confirm_reception db tid c requester).1 = .ok true ∧
        statusAt (confirm_reception db tid c requester).2 tid =
          some "completed" ∧
        (confirm_reception db tid c requester).2.product_sizes =
          db.product_sizes ++
            [{ id := db.next_size_id, product_id := p.id, size := t0.size,
               quantity := c.received_quantity, quantity_exhibition := 0,
               location_name := loc.name }]) ∧
    (c.condition_ok = true → c.received_quantity > 0 →
      db.products.find? (fun x =>
        x.reference_code == t0.sneaker_reference_code &&
          x.location_name == loc.name) = none →
      ∀ sp, db.products.find? (fun x =>
          x.reference_code == t0.sneaker_reference_code) = some sp →
        (confirm_reception db tid c requester).1 = .ok true ∧
        statusAt (confirm_reception db tid c requester).2 tid =
          some "completed" ∧
        (confirm_reception db tid c requester).2.products =
          db.products ++
            [{ id := db.next_product_id,
               reference_code := t0.sneaker_reference_code,
               description := t0.brand ++ " " ++ t0.model,
               brand := t0.brand, model := t0.model,
               color_info := some (pyOrString sp.color_info "Varios"),
               location_name := loc.name,
               unit_price := sp.unit_price, box_price := sp.box_price,
               is_active := 1, image_url := sp.image_url,
               video_url := sp.video_url }] ∧
        (confirm_reception db tid c requester).2.product_sizes =
          db.product_sizes ++
            [{ id := db.next_size_id, product_id := db.next_product_id,
               size := t0.size, quantity := c.received_quantity,
               quantity_exhibition := 0, location_name := loc.name }]) := by
  have hr1 : (t0.requester_id != requester.id) = false := by rw [hreq]; simp
  have hs1 : (t0.status != "delivered") = false := by rw [hst]; simp
  refine ⟨?_, ?_, ?_, ?_⟩
  · intro hcond
    have hguard : (c.condition_ok && decide (c.received_quantity > 0)) =
        false := by rw [hcond]; rfl
    have hres : confirm_reception db tid c requester =
        (.ok false, (update_transfer_status db tid "reception_issues"
          { received_quantity := some c.received_quantity,
            reception_notes := some (some ("Problemas en recepción: " ++
              pyFormat c.notes)) }).2) := by
      unfold confirm_reception
      simp only [hf]
      rw [if_neg (by simp [hr1]), if_neg (by simp [hs1]),
        if_neg (by simp [hguard])]
    refine ⟨by simp only [hres], by simp only [hres]; rfl,
      by simp only [hres]; rfl, ?_⟩
    simp only [hres]
    unfold statusAt
    rw [get_after_update, hf]
    rfl
  · intro hcond hrq p ps hp hs
    have hguard : (c.condition_ok && decide (c.received_quantity > 0)) =
        true := by rw [hcond]; simp [hrq]
    have hinv : update_inventory_on_reception db t0 c.received_quantity
        requester.location_id =
        (true, { db with product_sizes := updateQty db.product_sizes ps.id (fun q => q + c.received_quantity) }) := by
      unfold update_inventory_on_reception
      simp only [hloc, hp, hs]
    have hres : confirm_reception db tid c requester =
        (.ok true, (update_transfer_status
          { db with product_sizes := updateQty db.product_sizes ps.id (fun q => q + c.received_quantity) }
          tid "completed"
          { received_quantity := some c.received_quantity,
            reception_notes := some c.notes }).2) := by
      unfold confirm_reception
      simp only [hf]
      rw [if_neg (by simp [hr1]), if_neg (by simp [hs1]), if_pos hguard,
        hinv, if_pos (by simp)]
    refine ⟨by simp only [hres], ?_, ?_⟩
    · simp only [hres]
      unfold statusAt
      have hf2 : get_transfer_by_id
          { db with product_sizes := updateQty db.product_sizes ps.id (fun q => q + c.received_quantity) }
          tid = some t0 := hf
      rw [get_after_update, hf2]
      rfl
    · simp only [hres]
      show ((updateQty db.product_sizes ps.id
          (fun q => q + c.received_quantity)).find?
            (fun x => x.id == ps.id)).map (fun x => x.quantity) = _
      rw [find?_updateQty,
        find?_of_mem_nodup_size _ hndS (List.mem_of_find?_eq_some hs)]
      rfl
  · intro hcond hrq p hp hs
    have hguard : (c.condition_ok && decide (c.received_quantity > 0)) =
        true := by rw [hcond]; simp [hrq]
    have hinv : update_inventory_on_reception db t0 c.received_quantity
        requester.location_id =
        (true, { db with
          product_sizes := db.product_sizes ++
            [{ id := db.next_size_id, product_id := p.id, size := t0.size,
               quantity := c.received_quantity, quantity_exhibition := 0,
               location_name := loc.name }],
          next_size_id := db.next_size_id + 1 }) := by
      unfold update_inventory_on_reception
      simp only [hloc, hp, hs]
    have hres : confirm_reception db tid c requester =
        (.ok true, (update_transfer_status
          { db with
            product_sizes := db.product_sizes ++
              [{ id := db.next_size_id, product_id := p.id, size := t0.size,
                 quantity := c.received_quantity, quantity_exhibition := 0,
                 location_name := loc.name }],
            next_size_id := db.next_size_id + 1 }
          tid "completed"
          { received_quantity := some c.received_quantity,
            reception_notes := some c.notes }).2) := by
      unfold confirm_reception
      simp only [hf]
      rw [if_neg (by simp [hr1]), if_neg (by simp [hs1]), if_pos hguard,
        hinv, if_pos (by simp)]
    refine ⟨by simp only [hres], ?_, by simp only [hres]; rfl⟩
    simp only [hres]
    unfold statusAt
    have hf2 : get_transfer_by_id
        { db with
          product_sizes := db.product_sizes ++
            [{ id := db.next_size_id, product_id := p.id, size := t0.size,
               quantity := c.received_quantity, quantity_exhibition := 0,
               location_name := loc.name }],
          next_size_id := db.next_size_id + 1 }
        tid = some t0 := hf
    rw [get_after_update, hf2]
    rfl
  · intro hcond hrq hp sp hsp
    have hguard : (c.condition_ok && decide (c.received_quantity > 0)) =
        true := by rw [hcond]; simp [hrq]
    have hinv : update_inventory_on_reception db t0 c.received_quantity
        requester.location_id =
        (true, { db with
          products := db.products ++
            [{ id := db.next_product_id,
               reference_code := t0.sneaker_reference_code,
               description := t0.brand ++ " " ++ t0.model,
               brand := t0.brand, model := t0.model,
               color_info := some (pyOrString sp.color_info "Varios"),
               location_name := loc.name,
               unit_price := sp.unit_price, box_price := sp.box_price,
               is_active := 1, image_url := sp.image_url,
               video_url := sp.video_url }],
          product_sizes := db.product_sizes ++
            [{ id := db.next_size_id, product_id := db.next_product_id,
               size := t0.size, quantity := c.received_quantity,
               quantity_exhibition := 0, location_name := loc.name }],
          next_product_id := db.next_product_id + 1,
          next_size_id := db.next_size_id + 1 }) := by
      unfold update_inventory_on_reception
      simp only [hloc, hp, hsp]
    have hres : confirm_reception db tid c requester =
        (.ok true, (update_transfer_status
          { db with
            products := db.products ++
              [{ id := db.next_product_id,
                 reference_code := t0.sneaker_reference_code,
                 description := t0.brand ++ " " ++ t0.model,
                 brand := t0.brand, model := t0.model,
                 color_info := some (pyOrString sp.color_info "Varios"),
                 location_name := loc.name,
                 unit_price := sp.unit_price, box_price := sp.box_price,
                 is_active := 1, image_url := sp.image_url,
                 video_url := sp.video_url }],
            product_sizes := db.product_sizes ++
              [{ id := db.next_size_id, product_id := db.next_product_id,
                 size := t0.size, quantity := c.received_quantity,
                 quantity_exhibition := 0, location_name := loc.name }],
            next_product_id := db.next_product_id + 1,
            next_size_id := db.next_size_id + 1 }
          tid "completed"
          { received_quantity := some c.received_quantity,
            reception_notes := some c.notes }).2) := by
      unfold confirm_reception
      simp only [hf]
      rw [if_neg (by simp [hr1]), if_neg (by simp [hs1]), if_pos hguard,
        hinv, if_pos (by simp)]
    refine ⟨by simp only [hres], ?_, by simp only [hres]; rfl,
      by simp only [hres]; rfl⟩
    simp only [hres]
    unfold statusAt
    have hf2 : get_transfer_by_id
        { db with
          products := db.products ++
            [{ id := db.next_product_id,
               reference_code := t0.sneaker_reference_code,
               description := t0.brand ++ " " ++ t0.model,
               brand := t0.brand, model := t0.model,
               color_info := some (pyOrString sp.color_info "Varios"),
               location_name := loc.name,
               unit_price := sp.unit_price, box_price := sp.box_price,
               is_active := 1, image_url := sp.image_url,
               video_url := sp.video_url }],
          product_sizes := db.product_sizes ++
            [{ id := db.next_size_id, product_id := db.next_product_id,
               size := t0.size, quantity := c.received_quantity,
               quantity_exhibition := 0, location_name := loc.name }],
          next_product_id := db.next_product_id + 1,
          next_size_id := db.next_size_id + 1 }
        tid = some t0 := hf
    rw [get_after_update, hf2]
    rfl

/-- Claim C5 witness: the amended theorem applied at a concrete state where
the first product matching the reference code sits at a third location — the
destination product row is created copying that first match's fields, the
size row carries the received quantity, and the transfer completes. -/
theorem C5_reception_witness :
    (confirm_reception twoProductDB 1
      { received_quantity := 3, condition_ok := true, notes := none }
      ⟨10, 2⟩).1 = .ok true ∧
    statusAt (confirm_reception twoProductDB 1
      { received_quantity := 3, condition_ok := true, notes := none }
      ⟨10, 2⟩).2 1 = some "completed" ∧
    (confirm_reception twoProductDB 1
      { received_quantity := 3, condition_ok := true, notes := none }
      ⟨10, 2⟩).2.products =
      twoProductDB.products ++
        [{ id := twoProductDB.next_product_id,
           reference_code := deliveredTransfer.sneaker_reference_code,
           description := deliveredTransfer.brand ++ " " ++
             deliveredTransfer.model,
           brand := deliveredTransfer.brand, model := deliveredTransfer.model,
           color_info := some (pyOrString otherProduct.color_info "Varios"),
           location_name := "Local Norte",
           unit_price := otherProduct.unit_price,
           box_price := otherProduct.box_price,
           is_active := 1, image_url := otherProduct.image_url,
           video_url := otherProduct.video_url }] ∧
    (confirm_reception twoProductDB 1
      { received_quantity := 3, condition_ok := true, notes := none }
      ⟨10, 2⟩).2.product_sizes =
      twoProductDB.product_sizes ++
        [{ id := twoProductDB.next_size_id,
           product_id := twoProductDB.next_product_id,
           size := deliveredTransfer.size, quantity := 3,
           quantity_exhibition := 0, location_name := "Local Norte" }] :=
  (C5_reception twoProductDB 1
    { received_quantity := 3, condition_ok := true, notes := none }
    ⟨10, 2⟩ deliveredTransfer ⟨2, "Local Norte"⟩ (by decide) (by decide) rfl
    rfl (by decide)).2.2.2 rfl (by decide) (by decide) otherProduct
    (by decide)

/-- Claim C5 counterexample: in that state the source-location product
("Bodega Central") is white with unit price 300, but the product row created
at the destination copies color "Rojo" and price 999 from the product at
"Otra Tienda" — the first row matching the reference code — so "copying
descriptive fields from the source-location product" is false. -/
theorem C5_counterexample :
    (confirm_reception twoProductDB 1
      { received_quantity := 3, condition_ok := true, notes := none }
      ⟨10, 2⟩).1 = .ok true ∧
    demoProduct.location_name = "Bodega Central" ∧
    deliveredTransfer.source_location_id = 1 ∧
    (find_location twoProductDB 1).map (fun l => l.name) =
      some "Bodega Central" ∧
    demoProduct.color_info = some "Blanco" ∧ demoProduct.unit_price = 300 ∧
    (confirm_reception twoProductDB 1
      { received_quantity := 3, condition_ok := true, notes := none }
      ⟨10, 2⟩).2.products.map
        (fun p => (p.location_name, p.color_info, p.unit_price)) =
      [("Otra Tienda", some "Rojo", 999),
       ("Bodega Central", some "Blanco", 300),
       ("Local Norte", some "Rojo", 999)] := by
  refine ⟨?_, rfl, rfl, rfl, rfl, rfl, ?_⟩ <;> decide

end TuStockYa
